import Mathlib

/-!
Verification development for the `http-representation` library: an in-memory
model of HTTP messages (headers, bodies, responses) together with a response
composition engine (`ResponseBuilder`).

The definitions below are a shallow embedding of the TypeScript sources:

* `src/headers.ts`        — `Headers`, `appendValues`, `addHeadersObject`, …
* `src/body.ts`           — `getBody`, `Body` with its accessors and the
                            consumption state machine
* `src/node/replay-readable.ts` — `createReplayReadable`
* `src/response.ts`       — `Response`
* `src/partial-response.ts` — `PartialResponse`
* `src/response-builder.ts` — `ResponseBuilder`

Host functionality (capability flags probed from the global object, UTF-8
codecs, `JSON.parse`, `decodeURIComponent`, the `FileReader` API, the
availability of the `stream` module) is modelled by an explicit environment
record `Env`. JavaScript `undefined` is modelled by `Option`, thrown
exceptions by `Except`, and potential non-termination by a fuel parameter
returning `Option` (`none` = the computation does not finish).
-/

namespace HttpRep

-- Decidable equality for `Except`, needed to evaluate concrete runs.
deriving instance DecidableEq for Except

/-! ## Header name / value validation (src/headers.ts lines 10-23)

`invalidTokenRegex = /[^\^_\x60a-zA-Z\-0-9!#$%&\x27*+.|~]/` and
`invalidHeaderCharRegex = /[^\t\x20-\x7e\x80-\xff]/`. A name is legal when it
is non-empty and every character avoids the first regex; a value is legal when
every character avoids the second. -/

/-- Characters allowed in a header name. Character 96 is the backquote and
character 39 is the straight apostrophe from the token grammar. -/
def isValidNameChar (c : Char) : Bool :=
  (c ≥ 'a' && c ≤ 'z') || (c ≥ 'A' && c ≤ 'Z') || (c ≥ '0' && c ≤ '9') ||
  c == '^' || c == '_' || c.toNat == 96 || c == '-' || c == '!' || c == '#' ||
  c == '$' || c == '%' || c == '&' || c.toNat == 39 || c == '*' || c == '+' ||
  c == '.' || c == '|' || c == '~'

/-- `name.toLowerCase()` for header names, character by character (header
names are ASCII); spelled out over the character list so that the kernel can
evaluate it. -/
def toLowerString (s : String) : String := ⟨s.data.map Char.toLower⟩

/-- `validateName` as a predicate: `invalidTokenRegex.test(name) || name === ""`
raises a `TypeError`. -/
def validName (name : String) : Bool :=
  name ≠ "" && name.data.all isValidNameChar

/-- Characters allowed in a header value: tab, `0x20`-`0x7e`, `0x80`-`0xff`. -/
def isValidValueChar (c : Char) : Bool :=
  c.toNat == 9 || (c.toNat ≥ 0x20 && c.toNat ≤ 0x7e) ||
  (c.toNat ≥ 0x80 && c.toNat ≤ 0xff)

/-- `validateValue` as a predicate. -/
def validValue (value : String) : Bool :=
  value.data.all isValidValueChar

/-! ## The Headers class (src/headers.ts lines 135-203)

The store `private readonly headers: [key: string]: string[]` is a JavaScript
object whose string keys enumerate in insertion order; re-assigning an
existing key keeps its position. We model it as an ordered association list
from lower-cased names to value lists. -/

/-- Ordered multi-map of the `Headers` class. Keys are stored lower-cased. -/
structure Headers where
  entries : List (String × List String)
deriving DecidableEq

/-- A fresh, empty header collection (`new Headers()`). -/
def Headers.empty : Headers := ⟨[]⟩

/-- Whether the backing object already owns the (lower-cased) key, as in
`this.headers.hasOwnProperty(name.toLowerCase())`. -/
def Headers.hasKey (h : Headers) (key : String) : Bool :=
  h.entries.any (fun e => e.1 == key)

/-- Assignment `this.headers[key] = values`: replaces the list in place when
the key exists, otherwise adds the key at the end (JavaScript object key
insertion order). -/
def setEntries : List (String × List String) → String → List String →
    List (String × List String)
  | [], key, vs => [(key, vs)]
  | e :: rest, key, vs =>
    if e.1 == key then (key, vs) :: rest else e :: setEntries rest key vs

/-- `this.headers[key].push(value)` on an existing key. -/
def pushEntry : List (String × List String) → String → String →
    List (String × List String)
  | [], _, _ => []
  | e :: rest, key, v =>
    if e.1 == key then (e.1, e.2 ++ [v]) :: rest else e :: pushEntry rest key v

/-- `Headers.set` (src/headers.ts lines 177-181): validate name and value,
then replace all values of the name. -/
def Headers.set (h : Headers) (name value : String) : Except String Headers :=
  if !validName name then .error (name ++ " is not a legal HTTP header name")
  else if !validValue value then
    .error (value ++ " is not a legal HTTP header value")
  else .ok ⟨setEntries h.entries (toLowerString name) [value]⟩

/-- `Headers.append` (src/headers.ts lines 183-191): validate, delegate to
`set` for a fresh name, push onto the existing list otherwise. -/
def Headers.append (h : Headers) (name value : String) : Except String Headers :=
  if !validName name then .error (name ++ " is not a legal HTTP header name")
  else if !validValue value then
    .error (value ++ " is not a legal HTTP header value")
  else if !(h.hasKey (toLowerString name)) then h.set name value
  else .ok ⟨pushEntry h.entries (toLowerString name) value⟩

/-- `Headers.get` (src/headers.ts lines 152-156): first value or `undefined`. -/
def Headers.get (h : Headers) (name : String) : Except String (Option String) :=
  if !validName name then .error (name ++ " is not a legal HTTP header name")
  else .ok (match h.entries.find? (fun e => e.1 == toLowerString name) with
    | some e => e.2.head?
    | none => none)

/-- `Headers.getAll` (src/headers.ts lines 158-164): all values, `[]` when the
name is absent. -/
def Headers.getAll (h : Headers) (name : String) : Except String (List String) :=
  if !validName name then .error (name ++ " is not a legal HTTP header name")
  else .ok (match h.entries.find? (fun e => e.1 == toLowerString name) with
    | some e => e.2
    | none => [])

/-- `Headers.has` (src/headers.ts lines 193-196). -/
def Headers.has (h : Headers) (name : String) : Except String Bool :=
  if !validName name then .error (name ++ " is not a legal HTTP header name")
  else .ok (h.hasKey (toLowerString name))

/-- `Headers.delete` (src/headers.ts lines 198-201). -/
def Headers.deleteName (h : Headers) (name : String) : Except String Headers :=
  if !validName name then .error (name ++ " is not a legal HTTP header name")
  else .ok ⟨h.entries.filter (fun e => e.1 != toLowerString name)⟩

/-- The (name, value) sequence visited by `Headers.forEach`
(src/headers.ts lines 166-175): keys in insertion order, values in order,
duplicate names expanded. -/
def entryPairs : List (String × List String) → List (String × String)
  | [] => []
  | e :: rest => e.2.map (fun v => (e.1, v)) ++ entryPairs rest

/-- Iteration order of `Headers.forEach` for a collection. -/
def Headers.pairs (h : Headers) : List (String × String) :=
  entryPairs h.entries

/-! ## Header construction (src/headers.ts lines 25-90)

`HeaderValue = string | number | (string | number)[]`. We model the scalar
leaves with `HLeaf`: JavaScript `NaN` and non-string/non-number values get
their own constructors because `appendValues` treats them specially. -/

/-- A scalar leaf of a header mapping value. -/
inductive HLeaf
  | str (s : String)
  | num (n : Int)
  | nan
  | other
deriving DecidableEq

/-- `HeaderValue`: a scalar or a list of scalars. -/
inductive HeaderValue
  | leaf (l : HLeaf)
  | list (ls : List HLeaf)
deriving DecidableEq

/-- `appendValues` (src/headers.ts lines 25-33). The array branch in the
source reads

    value.forEach((item: HeaderValue) => appendValues(instance, key, value));

and passes the whole array `value` back in, not the element `item`, so a
non-empty array recurses on itself forever. The `fuel` parameter makes the
function total: `none` models the non-terminating run. The `forEach` loop is
a fold threading the mutated instance; a thrown validation error or an
exhausted fuel bound is sticky across the remaining iterations. -/
def appendValues (fuel : Nat) (inst : Headers) (key : String)
    (value : HeaderValue) : Option (Except String Headers) :=
  match fuel with
  | 0 => none
  | fuel + 1 =>
    match value with
    | .list items =>
      items.foldl
        (fun acc _item =>
          match acc with
          | none => none
          | some (.error e) => some (.error e)
          | some (.ok inst2) => appendValues fuel inst2 key (.list items))
        (some (.ok inst))
    | .leaf (.str s) => some (inst.append key s)
    | .leaf (.num n) => some (inst.append key (toString n))
    | .leaf .nan => some (.ok inst)
    | .leaf .other => some (.ok inst)

/-- `addHeadersObject` (src/headers.ts lines 35-40): iterate the own keys of
the mapping in order, calling `appendValues` for each. -/
def addHeadersObject (fuel : Nat) (inst : Headers) :
    List (String × HeaderValue) → Option (Except String Headers)
  | [] => some (.ok inst)
  | (key, value) :: rest =>
    match appendValues fuel inst key value with
    | none => none
    | some (.error e) => some (.error e)
    | some (.ok inst2) => addHeadersObject fuel inst2 rest

/-- Per-entry copy used by `addHeadersInstance` (src/headers.ts lines 64-68):
`headers.forEach((value, key) => instance.append(key, value))`. -/
def appendAll (inst : Headers) : List (String × String) → Except String Headers
  | [] => .ok inst
  | (key, value) :: rest =>
    match inst.append key value with
    | .error e => .error e
    | .ok inst2 => appendAll inst2 rest

/-- `addHeadersInstance`: copy another `Headers` in iteration order. -/
def addHeadersInstance (inst : Headers) (hs : Headers) : Except String Headers :=
  appendAll inst hs.pairs

/-- `addHeadersArray` (src/headers.ts lines 42-62): an iterable of name/value
pairs; with a well-typed pair list the arity checks pass and each pair is fed
to `appendValues`. -/
def addHeadersArray (fuel : Nat) (inst : Headers)
    (pairs : List (String × HeaderValue)) : Option (Except String Headers) :=
  addHeadersObject fuel inst pairs

/-- The initializer forms accepted by the `Headers` constructor
(src/headers.ts lines 77-90): another instance, an iterable of pairs, or a
plain object mapping. -/
inductive HeadersInit
  | inst (h : Headers)
  | arr (pairs : List (String × HeaderValue))
  | obj (pairs : List (String × HeaderValue))
deriving DecidableEq

/-- `addHeaders` dispatch (src/headers.ts lines 77-90). -/
def addHeaders (fuel : Nat) (inst : Headers) :
    Option HeadersInit → Option (Except String Headers)
  | none => some (.ok inst)
  | some (.inst hs) => some (addHeadersInstance inst hs)
  | some (.arr pairs) => addHeadersArray fuel inst pairs
  | some (.obj pairs) => addHeadersObject fuel inst pairs

/-- The `Headers` constructor (src/headers.ts lines 147-150). -/
def mkHeaders (fuel : Nat) (init : Option HeadersInit) :
    Option (Except String Headers) :=
  addHeaders fuel Headers.empty init

/-! ### Divergence of `appendValues` on non-empty arrays (claim C7) -/

/-- A fold whose step function is sticky at `none` stays at `none`. -/
theorem foldl_none_of_step_none {α β : Type} (f : Option α → β → Option α)
    (hf : ∀ x, f none x = none) : ∀ l : List β, l.foldl f none = none := by
  intro l
  induction l with
  | nil => rfl
  | cons x xs ih => rw [List.foldl_cons, hf x, ih]

/-- Helper for claim C7: because the forEach callback passes the whole array
back into `appendValues`, a non-empty list exhausts every fuel bound. -/
theorem appendValues_list_diverges :
    ∀ (fuel : Nat) (inst : Headers) (key : String) (l : List HLeaf),
      l ≠ [] → appendValues fuel inst key (.list l) = none := by
  intro fuel
  induction fuel with
  | zero => intro inst key l _; simp [appendValues]
  | succ n ih =>
    intro inst key l hl
    match l, hl with
    | i :: rest, _ =>
      have hdiv := ih inst key (i :: rest) (by simp)
      simp only [appendValues, List.foldl_cons, hdiv]
      exact foldl_none_of_step_none _ (fun x => rfl) rest

/-! ## Host environment (src/body.ts lines 21-39, src/global-or-self.ts,
src/node/replay-readable.ts lines 9-17)

The `support` record probes the global object once; UTF-8 codecs, the
`FileReader` API, `JSON.parse`, `decodeURIComponent` and the dynamic load of
the `stream` module are host functionality, modelled as fields of an explicit
environment. -/

/-- Host capabilities and host primitive functions. -/
structure Env where
  supportSearchParams : Bool
  supportBlob : Bool
  supportFormData : Bool
  supportArrayBuffer : Bool
  supportBuffer : Bool
  /-- Whether `getModule("stream")` succeeds inside `createReplayReadable`. -/
  streamModule : Bool
  /-- `Buffer.from(text, "utf-8")`. -/
  utf8Encode : String → List Nat
  /-- `buffer.toString("utf-8")`. -/
  utf8Decode : List Nat → String
  /-- `FileReader.readAsText` on a blob of the given bytes. -/
  blobReadAsText : List Nat → String
  /-- `JSON.parse`; `none` models a thrown `SyntaxError`. The parsed document
  itself is opaque to the library, so it is kept abstract as a string. -/
  jsonParse : String → Option String
  /-- `decodeURIComponent`; `none` models a thrown `URIError`. -/
  decodeURIComponent : String → Option String

/-- Byte encoding used by the concrete witness environment: code points of the
characters (agrees with UTF-8 on ASCII payloads). -/
def asciiEncode (s : String) : List Nat := s.data.map Char.toNat

/-- Byte decoding of the concrete witness environment. -/
def asciiDecode (l : List Nat) : String := String.mk (l.map Char.ofNat)

/-- A concrete host environment for witnesses: every capability present,
ASCII codecs, pass-through parsers. -/
def stdEnv : Env where
  supportSearchParams := true
  supportBlob := true
  supportFormData := true
  supportArrayBuffer := true
  supportBuffer := true
  streamModule := true
  utf8Encode := asciiEncode
  utf8Decode := asciiDecode
  blobReadAsText := asciiDecode
  jsonParse := fun s => some s
  decodeURIComponent := fun s => some s

/-! ## Body input values and the resolver (src/body.ts lines 6-19, 198-244) -/

/-- The internal state of a Node.js `Readable`: the chunk sequence it will
emit, how many chunks were already emitted, and how often it has been
resumed into a full drain (`drains` is bookkeeping for the verification, it
counts the completed drains of the live stream). -/
structure StreamState where
  chunks : List (List Nat)
  pos : Nat
  drains : Nat
deriving DecidableEq

/-- A `BodyInit` input value. `buffer` covers both `Buffer` and `Uint8Array`
(a Node `Buffer` is a `Uint8Array`). `searchParams` carries the
`toString()` serialization of the `URLSearchParams` object. `otherObject` is
any other truthy object, carrying its `Object.prototype.toString` tag. -/
inductive BodyInitV
  | str (s : String)
  | searchParams (s : String)
  | buffer (bytes : List Nat)
  | blob (bytes : List Nat) (type : String)
  | formData (entries : List (String × String))
  | arrayBuffer (bytes : List Nat)
  | dataView (bytes : List Nat)
  | readable (chunks : List (List Nat))
  | bodyLike (inner : BodyInitV)
  | otherObject (tag : String)
deriving DecidableEq

/-- `Object.prototype.toString.call(body)` for the values that can fall
through every branch of `getBody`. -/
def toStringTag : BodyInitV → String
  | .str _ => "[object String]"
  | .searchParams _ => "[object URLSearchParams]"
  | .buffer _ => "[object Uint8Array]"
  | .blob _ _ => "[object Blob]"
  | .formData _ => "[object FormData]"
  | .arrayBuffer _ => "[object ArrayBuffer]"
  | .dataView _ => "[object DataView]"
  | .readable _ => "[object Object]"
  | .bodyLike _ => "[object Object]"
  | .otherObject tag => tag

/-- `BodyRepresentation` (src/body.ts lines 12-19): the tagged byte-source
record produced by `getBody`. A blob is its byte content plus its media
type (empty string = no type). -/
structure BodyRepresentation where
  text : Option String := none
  blob : Option (List Nat × String) := none
  formData : Option (List (String × String)) := none
  arrayBuffer : Option (List Nat) := none
  buffer : Option (List Nat) := none
  readable : Option StreamState := none
deriving DecidableEq

/-- `getBody` on a present value (src/body.ts lines 198-244), first match
wins:
1. strings become a text representation;
2. a `.body`-exposing wrapper recurses on its body (the guard
   `body.body || typeof body.body === "string"` holds for every
   representable inner value);
3. a stream (`body.readable` under buffer support, or the
   `on`/`once`/`resume` duck check) becomes a readable representation;
4. `Buffer`/`Uint8Array` become a buffer representation;
5. `Blob` (when supported) becomes a blob representation;
6. `FormData` (when supported) becomes a form representation;
7. `URLSearchParams` (when supported) is stringified into a TEXT
   representation;
8. a `DataView` (array-buffer and blob support) is cloned into an
   array-buffer plus an untyped blob;
9. array-buffer-likes (when supported) are cloned;
10. anything else falls back to text via its toString tag. -/
def getBodyValue (env : Env) : BodyInitV → BodyRepresentation
  | .str s => { text := some s }
  | .bodyLike inner => getBodyValue env inner
  | .readable chunks => { readable := some ⟨chunks, 0, 0⟩ }
  | .buffer bytes => { buffer := some bytes }
  | .blob bytes type =>
    if env.supportBlob then { blob := some (bytes, type) }
    else { text := some (toStringTag (.blob bytes type)) }
  | .formData entries =>
    if env.supportFormData then { formData := some entries }
    else { text := some (toStringTag (.formData entries)) }
  | .searchParams s =>
    if env.supportSearchParams then { text := some s }
    else { text := some (toStringTag (.searchParams s)) }
  | .dataView bytes =>
    if env.supportArrayBuffer && env.supportBlob then
      { arrayBuffer := some bytes, blob := some (bytes, "") }
    else if env.supportArrayBuffer then { arrayBuffer := some bytes }
    else { text := some (toStringTag (.dataView bytes)) }
  | .arrayBuffer bytes =>
    if env.supportArrayBuffer then { arrayBuffer := some bytes }
    else { text := some (toStringTag (.arrayBuffer bytes)) }
  | .otherObject tag => { text := some tag }

/-- `getBody` (src/body.ts lines 198-244): `undefined` input resolves to no
representation at all. -/
def getBody (env : Env) : Option BodyInitV → Option BodyRepresentation
  | none => none
  | some b => some (getBodyValue env b)

/-! ## The Body class (src/body.ts lines 286-614) and the replay mechanism
(src/node/replay-readable.ts lines 29-67)

`createReplayReadable(initial)` subscribes to the live stream, recording its
chunks and its end, and resolves to a replay function (or to `undefined` when
the `stream` module is unavailable). Each replay call produces a
`PassThrough` seeded with the recorded chunks; when the live stream has not
ended yet, the live stream is additionally piped into it. -/

/-- The resolved value of the `readableReplay` promise: `unavailable` when
`createReplayReadable` resolved to `undefined`, otherwise the closure state
of the replay function (recorded chunks, whether the end event fired). -/
inductive ReplayOutcome
  | unavailable
  | handle (recorded : List (List Nat)) (ended : Bool)
deriving DecidableEq

/-- Errors surfaced by the body accessors. `consumption` covers the
`TypeError` family of the consumption state machine ("Already read",
"Already used"); `failure` covers every other thrown `Error`. -/
inductive AccessError
  | consumption (msg : String)
  | failure (msg : String)
deriving DecidableEq

/-- The mutable state of a `Body` instance (src/body.ts lines 315-325): the
resolved representation (the internal state of its stream included), the
headers, the consumption flags and the lazily created replay promise. -/
structure Body where
  bodyRepresentation : Option BodyRepresentation
  headers : Headers
  bodyUsedInternal : Bool := false
  ignoreConsume : Bool := false
  readableReplay : Option ReplayOutcome := none
deriving DecidableEq

/-- The `bodyUsed` getter (src/body.ts lines 315-317). -/
def Body.bodyUsed (b : Body) : Bool := b.bodyUsedInternal

/-- `consumed()` (src/body.ts lines 589-600): reject when already used,
otherwise mark used unless consumption is ignored. -/
def Body.consumed (b : Body) : Option AccessError × Body :=
  if b.bodyUsedInternal then (some (.consumption "Already read"), b)
  else if b.ignoreConsume then (none, b)
  else (none, { b with bodyUsedInternal := true })

/-- `ignoreBodyUsed()` (src/body.ts lines 602-608). -/
def Body.ignoreBodyUsed (b : Body) : Body :=
  if b.bodyUsedInternal || b.ignoreConsume then b
  else { b with ignoreConsume := true }

/-- Draining the live stream to its end: emits the not-yet-emitted chunks and
fires the end event. When a replay subscription exists
(src/node/replay-readable.ts lines 44-49), the emitted chunks are recorded
into the closure and `ended` is set. `drains` counts the completed drains of
the live stream. -/
def Body.drainLive (b : Body) : List (List Nat) × Body :=
  match b.bodyRepresentation with
  | none => ([], b)
  | some rep =>
    match rep.readable with
    | none => ([], b)
    | some st =>
      let emitted := st.chunks.drop st.pos
      let st2 : StreamState := ⟨st.chunks, st.chunks.length, st.drains + 1⟩
      let replay2 := match b.readableReplay with
        | some (.handle recorded _) => some (ReplayOutcome.handle (recorded ++ emitted) true)
        | other => other
      (emitted, { b with bodyRepresentation := some { rep with readable := some st2 },
                         readableReplay := replay2 })

/-- A readable stream handed out by `createReadableIfRequired`: either the
live stream itself, or a replay `PassThrough` seeded with the recorded
chunks (piped from the live stream when it has not ended). -/
inductive ReadSource
  | live
  | replayed (recorded : List (List Nat)) (ended : Bool)
deriving DecidableEq

/-- `createReadableIfRequired` (src/body.ts lines 359-390):
* no representation / no stream → `undefined`;
* consumption not ignored → the live stream itself;
* a resolved replay promise → replay (a rejected `undefined` replay means the
  stream was consumed elsewhere: `TypeError("Already used")`);
* otherwise build the replay via `createReplayReadable`; when the host lacks
  the `stream` module the replay is unavailable and the body degrades to a
  marked single use of the live stream. -/
def Body.createReadableIfRequired (b : Body) (env : Env) :
    Except AccessError (Option ReadSource) × Body :=
  match b.bodyRepresentation with
  | none => (.ok none, b)
  | some rep =>
    match rep.readable with
    | none => (.ok none, b)
    | some _ =>
      if !b.ignoreConsume then (.ok (some .live), b)
      else
        match b.readableReplay with
        | some .unavailable => (.error (.consumption "Already used"), b)
        | some (.handle recorded ended) => (.ok (some (.replayed recorded ended)), b)
        | none =>
          if env.streamModule then
            -- subscribe (nothing recorded yet) and hand out a first replay
            let b2 := { b with readableReplay := some (.handle [] false) }
            (.ok (some (.replayed [] false)), b2)
          else
            let b2 := { b with readableReplay := some .unavailable }
            if b2.bodyUsedInternal then (.error (.consumption "Already used"), b2)
            else (.ok (some .live), { b2 with bodyUsedInternal := true })

/-- `Buffer.concat` / the manual concatenation loop of `readReadableAsBuffer`
(src/body.ts lines 160-196). -/
def concatChunks (l : List (List Nat)) : List Nat :=
  l.foldl (fun acc c => acc ++ c) []

/-- `readReadableAsBuffer` applied to a stream obtained from
`createReadableIfRequired`: the delivered bytes. Draining a replay
`PassThrough` whose source has not ended also drains (and records) the live
stream through the pipe. -/
def Body.drainSource (b : Body) (src : ReadSource) : List Nat × Body :=
  match src with
  | .live =>
    let (emitted, b2) := b.drainLive
    (concatChunks emitted, b2)
  | .replayed recorded ended =>
    if ended then (concatChunks recorded, b)
    else
      let (emitted, b2) := b.drainLive
      (concatChunks (recorded ++ emitted), b2)

/-- The remaining chunk sequence of the live stream. -/
def Body.remainingChunks (b : Body) : List (List Nat) :=
  match b.bodyRepresentation with
  | none => []
  | some rep =>
    match rep.readable with
    | none => []
    | some st => st.chunks.drop st.pos

/-- The chunk sequence a `ReadSource` will deliver, used when such a stream
is handed onward as a new body input. -/
def Body.sourceChunks (b : Body) (src : ReadSource) : List (List Nat) :=
  match src with
  | .live => b.remainingChunks
  | .replayed recorded ended =>
    if ended then recorded else recorded ++ b.remainingChunks

/-- `readStringAsArrayBuffer` (src/body.ts lines 109-116): a 2-byte-per-
character expansion of the UTF-16 code units, little endian. -/
def readStringAsArrayBuffer (value : String) : List Nat :=
  (value.data.map (fun c => [c.toNat % 256, c.toNat / 256 % 256])).foldl
    (fun acc c => acc ++ c) []

/-- `readUint8ArrayAsText` (src/body.ts lines 138-144): one
`String.fromCharCode` per byte. -/
def readUint8ArrayAsText (view : List Nat) : String :=
  String.mk (view.map Char.ofNat)

/-- `readArrayBufferAsText` (src/body.ts lines 133-136). -/
def readArrayBufferAsText (arrayBuffer : List Nat) : String :=
  readUint8ArrayAsText arrayBuffer

/-- `readStringAsFormData` (src/body.ts lines 118-131): trim, split on `&`,
drop empty groups, split each group on `=` (first piece the name, the rest
re-joined the value), `+` as space, percent-decode both. A `URIError` from
`decodeURIComponent` (`none`) aborts the parse. -/
def readStringAsFormData (env : Env) (value : String) :
    Option (List (String × String)) :=
  let groups := (value.trim.splitOn "&").filter (fun bytes => bytes ≠ "")
  groups.foldl
    (fun acc bytes =>
      match acc with
      | none => none
      | some form =>
        let split := bytes.splitOn "="
        let name := (split.headD "").replace "+" " "
        let v := (String.intercalate "=" split.tail).replace "+" " "
        match env.decodeURIComponent name, env.decodeURIComponent v with
        | some n, some dv => some (form ++ [(n, dv)])
        | _, _ => none)
    (some [])

/-- `textNoConsumeCheck` (src/body.ts lines 565-587), the conversion half of
`text()`:
* a readable representation is drained through `createReadableIfRequired`
  and UTF-8 decoded;
* a buffer is UTF-8 decoded (code-unit decoded without buffer support);
* a blob goes through `FileReader.readAsText`;
* an array-buffer through the per-byte code-unit path;
* a text representation is returned as is;
* anything else: `Error("Could not read body as text")`. -/
def Body.textNoConsumeCheck (b : Body) (env : Env) :
    Except AccessError (Option String) × Body :=
  match b.bodyRepresentation with
  | none => (.error (.failure "TypeError"), b) -- never reached: callers check
  | some rep =>
    match rep.readable with
    | some _ =>
      (match b.createReadableIfRequired env with
      | (.error e, b2) => (.error e, b2)
      | (.ok none, b2) => (.error (.failure "TypeError"), b2) -- unreachable
      | (.ok (some src), b2) =>
        let (bytes, b3) := b2.drainSource src
        (.ok (some (env.utf8Decode bytes)), b3))
    | none =>
      match rep.buffer with
      | some bytes =>
        if env.supportBuffer then (.ok (some (env.utf8Decode bytes)), b)
        else (.ok (some (readUint8ArrayAsText bytes)), b)
      | none =>
        match rep.blob with
        | some (bytes, _) => (.ok (some (env.blobReadAsText bytes)), b)
        | none =>
          match rep.arrayBuffer with
          | some bytes => (.ok (some (readArrayBufferAsText bytes)), b)
          | none =>
            match rep.text with
            | some t => (.ok (some t), b)
            | none => (.error (.failure "Could not read body as text"), b)

/-- `text()` (src/body.ts lines 554-563): no representation resolves to
`undefined` without touching the consumption state; otherwise check and mark
consumption, then convert. -/
def Body.text (b : Body) (env : Env) : Except AccessError (Option String) × Body :=
  match b.bodyRepresentation with
  | none => (.ok none, b)
  | some _ =>
    match b.consumed with
    | (some e, b1) => (.error e, b1)
    | (none, b1) => b1.textNoConsumeCheck env

/-- `json()` (src/body.ts lines 537-552): text conversion then `JSON.parse`,
all failures remapped to `Error("Could not read body as json")`. -/
def Body.json (b : Body) (env : Env) : Except AccessError (Option String) × Body :=
  match b.bodyRepresentation with
  | none => (.ok none, b)
  | some _ =>
    match b.consumed with
    | (some e, b1) => (.error e, b1)
    | (none, b1) =>
      match b1.textNoConsumeCheck env with
      | (.error _, b2) => (.error (.failure "Could not read body as json"), b2)
      | (.ok none, b2) => (.error (.failure "Could not read body as json"), b2)
      | (.ok (some t), b2) =>
        match env.jsonParse t with
        | some doc => (.ok (some doc), b2)
        | none => (.error (.failure "Could not read body as json"), b2)

/-- `formData()` (src/body.ts lines 513-535): capability check, a form
representation is returned directly, anything else goes through the text
conversion and the `&`/`=` parser, failures remapped to
`Error("Could not read body as FormData")`. -/
def Body.formData (b : Body) (env : Env) :
    Except AccessError (Option (List (String × String))) × Body :=
  match b.bodyRepresentation with
  | none => (.ok none, b)
  | some rep =>
    match b.consumed with
    | (some e, b1) => (.error e, b1)
    | (none, b1) =>
      if !env.supportFormData then (.error (.failure "Not available"), b1)
      else
        match rep.formData with
        | some entries => (.ok (some entries), b1)
        | none =>
          match b1.textNoConsumeCheck env with
          | (.error _, b2) => (.error (.failure "Could not read body as FormData"), b2)
          | (.ok none, b2) => (.error (.failure "Could not read body as FormData"), b2)
          | (.ok (some t), b2) =>
            match readStringAsFormData env t with
            | some form => (.ok (some form), b2)
            | none => (.error (.failure "Could not read body as FormData"), b2)

/-- `blob()` (src/body.ts lines 477-511): capability check, then blob /
readable (drained directly, not through the replay helper) / buffer /
array-buffer / text in that order; a non-string text representation raises
`Error("Could not read body as Blob")`. The produced blob carries no media
type. -/
def Body.blob (b : Body) (env : Env) :
    Except AccessError (Option (List Nat × String)) × Body :=
  match b.bodyRepresentation with
  | none => (.ok none, b)
  | some rep =>
    match b.consumed with
    | (some e, b1) => (.error e, b1)
    | (none, b1) =>
      if !env.supportBlob then (.error (.failure "Not available"), b1)
      else
        match rep.blob with
        | some bl => (.ok (some bl), b1)
        | none =>
          match rep.readable with
          | some _ =>
            let (emitted, b2) := b1.drainLive
            (.ok (some (concatChunks emitted, "")), b2)
          | none =>
            match rep.buffer with
            | some bytes => (.ok (some (bytes, "")), b1)
            | none =>
              match rep.arrayBuffer with
              | some bytes => (.ok (some (bytes, "")), b1)
              | none =>
                match rep.text with
                | some t => (.ok (some (env.utf8Encode t, "")), b1)
                | none => (.error (.failure "Could not read body as Blob"), b1)

/-- `arrayBuffer()` (src/body.ts lines 439-475): capability check, then
readable (NOTE: drained directly from the live stream, bypassing the replay
helper) / buffer / array-buffer / text (2-byte code-unit expansion); anything
else is converted through `blob()`, whose failure is remapped to
`Error("Could not read body as ArrayBuffer")`. -/
def Body.arrayBuffer (b : Body) (env : Env) :
    Except AccessError (Option (List Nat)) × Body :=
  match b.bodyRepresentation with
  | none => (.ok none, b)
  | some rep =>
    match b.consumed with
    | (some e, b1) => (.error e, b1)
    | (none, b1) =>
      if !env.supportArrayBuffer then (.error (.failure "Not available"), b1)
      else
        match rep.readable with
        | some _ =>
          let (emitted, b2) := b1.drainLive
          (.ok (some (concatChunks emitted)), b2)
        | none =>
          match rep.buffer with
          | some bytes => (.ok (some bytes), b1)
          | none =>
            match rep.arrayBuffer with
            | some bytes => (.ok (some bytes), b1)
            | none =>
              match rep.text with
              | some t => (.ok (some (readStringAsArrayBuffer t)), b1)
              | none =>
                match b1.blob env with
                | (.ok (some (bytes, _)), b2) => (.ok (some bytes), b2)
                | (.ok none, b2) =>
                  (.error (.failure "Could not read body as ArrayBuffer"), b2)
                | (.error _, b2) =>
                  (.error (.failure "Could not read body as ArrayBuffer"), b2)

/-- `buffer_DO_NOT_USE_NON_STANDARD` (src/body.ts lines 392-422): readable
(through the replay helper) / buffer / text (UTF-8 encode); anything else is
converted through `arrayBuffer()`, whose failure is remapped to
`Error("Could not read body as Buffer")`. -/
def Body.buffer_DO_NOT_USE_NON_STANDARD (b : Body) (env : Env) :
    Except AccessError (Option (List Nat)) × Body :=
  match b.bodyRepresentation with
  | none => (.ok none, b)
  | some rep =>
    match b.consumed with
    | (some e, b1) => (.error e, b1)
    | (none, b1) =>
      match rep.readable with
      | some _ =>
        (match b1.createReadableIfRequired env with
        | (.error e, b2) => (.error e, b2)
        | (.ok none, b2) => (.error (.failure "TypeError"), b2) -- unreachable
        | (.ok (some src), b2) =>
          let (bytes, b3) := b2.drainSource src
          (.ok (some bytes), b3))
      | none =>
        match rep.buffer with
        | some bytes => (.ok (some bytes), b1)
        | none =>
          match rep.text with
          | some t => (.ok (some (env.utf8Encode t)), b1)
          | none =>
            match b1.arrayBuffer env with
            | (.ok (some bytes), b2) => (.ok (some bytes), b2)
            | (.ok none, b2) =>
              (.error (.failure "Could not read body as Buffer"), b2)
            | (.error _, b2) =>
              (.error (.failure "Could not read body as Buffer"), b2)

/-- The result shape of `bestSuited_DO_NOT_USE_NON_STANDARD`: the resolved
representation itself, or a fresh readable for stream-backed bodies. -/
inductive BestSuited
  | rep (r : BodyRepresentation)
  | readableSrc (src : Option ReadSource)
deriving DecidableEq

/-- `bestSuited_DO_NOT_USE_NON_STANDARD` (src/body.ts lines 424-437). -/
def Body.bestSuited_DO_NOT_USE_NON_STANDARD (b : Body) (env : Env) :
    Except AccessError (Option BestSuited) × Body :=
  match b.bodyRepresentation with
  | none => (.ok none, b)
  | some rep =>
    match b.consumed with
    | (some e, b1) => (.error e, b1)
    | (none, b1) =>
      match rep.readable with
      | some _ =>
        (match b1.createReadableIfRequired env with
        | (.error e, b2) => (.error e, b2)
        | (.ok src, b2) => (.ok (some (.readableSrc src)), b2))
      | none => (.ok (some (.rep rep)), b1)

/-- `readable_DO_NOT_USE_NON_STANDARD` (src/body.ts lines 342-357). -/
def Body.readable_DO_NOT_USE_NON_STANDARD (b : Body) (env : Env) :
    Except AccessError (Option ReadSource) × Body :=
  match b.bodyRepresentation with
  | none => (.ok none, b)
  | some rep =>
    match b.consumed with
    | (some e, b1) => (.error e, b1)
    | (none, b1) =>
      if !env.supportBuffer then (.error (.failure "Not available"), b1)
      else
        match rep.readable with
        | some _ => b1.createReadableIfRequired env
        | none => (.error (.failure "Required Readable body, didn't get one"), b1)

/-- The `body` getter (src/body.ts lines 288-313): buffer / array-buffer /
form / blob / truthy (non-empty) text in that order; a readable
representation and everything else yield `undefined`. -/
def Body.body (b : Body) : Option BodyInitV :=
  match b.bodyRepresentation with
  | none => none
  | some rep =>
    match rep.buffer with
    | some bytes => some (.buffer bytes)
    | none =>
      match rep.arrayBuffer with
      | some bytes => some (.arrayBuffer bytes)
      | none =>
        match rep.formData with
        | some entries => some (.formData entries)
        | none =>
          match rep.blob with
          | some (bytes, type) => some (.blob bytes type)
          | none =>
            match rep.text with
            | some t => if t ≠ "" then some (.str t) else none
            | none => none

/-- `asReadable` (src/body.ts lines 269-276) applied to a `Body`: our bodies
always expose the non-standard readable accessor, so the call delegates. -/
def asReadable (b : Body) (env : Env) :
    Except AccessError (Option ReadSource) × Body :=
  b.readable_DO_NOT_USE_NON_STANDARD env

/-- JavaScript truthiness of a body input value (only the empty string is
falsy among the representable values). -/
def jsTruthyBody : Option BodyInitV → Bool
  | none => false
  | some (.str s) => s ≠ ""
  | some _ => true

/-- The `Body` constructor (src/body.ts lines 327-340): resolve the
representation, build the headers, then infer a content type only when none
was given: a text representation forces `text/plain;charset=UTF-8`; a blob
with a non-empty media type forces that type; a `URLSearchParams` input
(checked on the ORIGINAL input value, not the representation) forces
`application/x-www-form-urlencoded;charset=UTF-8`. -/
def mkBody (env : Env) (fuel : Nat) (body : Option BodyInitV)
    (headersInit : Option HeadersInit) : Option (Except String Body) :=
  match mkHeaders fuel headersInit with
  | none => none
  | some (.error e) => some (.error e)
  | some (.ok headers) =>
    match getBody env body with
    | none => some (.ok { bodyRepresentation := none, headers })
    | some rep =>
      if headers.hasKey "content-type" then
        some (.ok { bodyRepresentation := some rep, headers })
      else if rep.text.isSome then
        match headers.set "content-type" "text/plain;charset=UTF-8" with
        | .error e => some (.error e)
        | .ok headers2 => some (.ok { bodyRepresentation := some rep, headers := headers2 })
      else
        match rep.blob with
        | some (_, type) =>
          if type ≠ "" then
            match headers.set "content-type" type with
            | .error e => some (.error e)
            | .ok headers2 => some (.ok { bodyRepresentation := some rep, headers := headers2 })
          else if env.supportSearchParams &&
              (match body with | some (.searchParams _) => true | _ => false) then
            match headers.set "content-type" "application/x-www-form-urlencoded;charset=UTF-8" with
            | .error e => some (.error e)
            | .ok headers2 => some (.ok { bodyRepresentation := some rep, headers := headers2 })
          else some (.ok { bodyRepresentation := some rep, headers })
        | none =>
          if env.supportSearchParams &&
              (match body with | some (.searchParams _) => true | _ => false) then
            match headers.set "content-type" "application/x-www-form-urlencoded;charset=UTF-8" with
            | .error e => some (.error e)
            | .ok headers2 => some (.ok { bodyRepresentation := some rep, headers := headers2 })
          else some (.ok { bodyRepresentation := some rep, headers })

/-! ## Response and PartialResponse (src/response.ts, src/partial-response.ts) -/

/-- The plain-object form of `ResponseInit`. -/
structure ResponseInitFields where
  status : Option Nat := none
  statusText : Option String := none
  headers : Option HeadersInit := none
deriving DecidableEq

/-- A `Response` (src/response.ts lines 13-38): a `Body` plus editable status
and status text. `isPart` models the `partial` property: it is `true` on a
`PartialResponse` and absent — hence falsy — on a plain `Response`. -/
structure Response where
  bodyState : Body
  editableStatus : Option Nat
  editableStatusText : Option String
  isPart : Bool := false
deriving DecidableEq

/-- The `status` getter. -/
def Response.status (r : Response) : Option Nat := r.editableStatus

/-- The `statusText` getter. -/
def Response.statusText (r : Response) : Option String := r.editableStatusText

/-- `ResponseInit = Response | plain fields` (src/response.ts lines 4-8):
`clone()` passes the response itself as the init object. -/
inductive RInit
  | fields (i : ResponseInitFields)
  | ofResponse (r : Response)
deriving DecidableEq

/-- `init.status` of either init form. -/
def RInit.status : RInit → Option Nat
  | .fields i => i.status
  | .ofResponse r => r.editableStatus

/-- `init.statusText` of either init form. -/
def RInit.statusText : RInit → Option String
  | .fields i => i.statusText
  | .ofResponse r => r.editableStatusText

/-- `init.headers` of either init form: on a response it is the `Headers`
instance. -/
def RInit.headersInit : RInit → Option HeadersInit
  | .fields i => i.headers
  | .ofResponse r => some (.inst r.bodyState.headers)

/-- The `Response` constructor (src/response.ts lines 29-38):

    super(body, init && init.headers);
    this.editableStatus = init ? init.status : 200;
    this.editableStatusText = init ? init.statusText : undefined;
    if (init && typeof init.status === "number" && body &&
        [101, 204, 205, 304].indexOf(this.status) !== -1) {
      throw new TypeError("Body provided for a null-body status");
    }

Note: the status defaults to 200 only when NO init object is given at all;
an init object without a `status` field leaves the status `undefined`. -/
def mkResponse (env : Env) (fuel : Nat) (body : Option BodyInitV)
    (init : Option RInit) : Option (Except String Response) :=
  match mkBody env fuel body (init.bind RInit.headersInit) with
  | none => none
  | some (.error e) => some (.error e)
  | some (.ok bodyState) =>
    let status : Option Nat := match init with
      | none => some 200
      | some i => i.status
    let statusText : Option String := init.bind RInit.statusText
    if init.isSome && (init.bind RInit.status).isSome && jsTruthyBody body &&
        (status == some 101 || status == some 204 || status == some 205 ||
         status == some 304) then
      some (.error "Body provided for a null-body status")
    else
      some (.ok { bodyState, editableStatus := status,
                  editableStatusText := statusText })

/-- `Response.clone` (src/response.ts lines 52-57):
`new Response(this.body, this)`. -/
def Response.clone (r : Response) (env : Env) (fuel : Nat) :
    Option (Except String Response) :=
  mkResponse env fuel r.bodyState.body (some (.ofResponse r))

/-- The `PartialResponse` constructor (src/partial-response.ts): call the
`Response` constructor, reset the status to `undefined` unless the init
carried an explicit numeric status, flag the message partial, and pre-mark
the body re-usable via `ignoreBodyUsed()`. -/
def mkPartialResponse (env : Env) (fuel : Nat) (body : Option BodyInitV)
    (init : Option RInit) : Option (Except String Response) :=
  match mkResponse env fuel body init with
  | none => none
  | some (.error e) => some (.error e)
  | some (.ok r) =>
    let r2 := if (init.bind RInit.status).isSome then r
              else { r with editableStatus := none }
    some (.ok { r2 with isPart := true,
                        bodyState := r2.bodyState.ignoreBodyUsed })

/-! ## ResponseBuilder (src/response-builder.ts) -/

/-- `ResponseBuilderOptions` (src/response-builder.ts lines 8-15). The
header post-processor is a host function from the accumulated collection to
a header initializer (`none` models a falsy result). -/
structure BuilderOptions where
  ignoreSubsequentFullResponses : Bool := false
  replaceSubsequentFullResponses : Bool := false
  disableReadableCheck : Bool := false
  useSetForEntityHeaders : Bool := false
  entityHeaders : Option (List String) := none
  processHeaders : Option (Headers → Option HeadersInit) := none

/-- The state of a `ResponseBuilder` (src/response-builder.ts lines 17-30):
the gap-tolerant fragment list (a `none` element is a recorded `undefined`),
the full-response flag, the frozen configuration, the cached build and the
dirty flag. -/
structure Builder where
  editableResponses : List (Option Response) := []
  fullResponseAppended : Bool := false
  ignoreSubsequentFullResponses : Bool := false
  replaceSubsequentFullResponses : Bool := false
  disableReadableCheck : Bool := false
  useSetForEntityHeaders : Bool := false
  entityHeaders : Option (List String) := none
  processHeaders : Option (Headers → Option HeadersInit) := none
  responseCache : Option (Option (Except String Response)) := none
  contaminated : Bool := false

/-- The `ResponseBuilder` constructor (src/response-builder.ts lines 32-52).
Both merge policies together raise a configuration error. Note that the
constructor never copies `options.entityHeaders`, so the stored list stays
`undefined` and `build` always falls back to the default entity-header
list. -/
def mkBuilder (options : Option BuilderOptions) : Except String Builder :=
  match options with
  | none => .ok {}
  | some o =>
    if o.ignoreSubsequentFullResponses && o.replaceSubsequentFullResponses then
      .error "ResponseBuilder only accepts ignoreSubsequentFullResponses or replaceSubsequentFullResponses, not both"
    else
      .ok { ignoreSubsequentFullResponses := o.ignoreSubsequentFullResponses,
            replaceSubsequentFullResponses := o.replaceSubsequentFullResponses,
            disableReadableCheck := o.disableReadableCheck,
            useSetForEntityHeaders := o.useSetForEntityHeaders,
            processHeaders := o.processHeaders }

/-- The filter of the replace branch,
`this.editableResponses.filter((response: PartialResponse) => response.partial)`:
it KEEPS the partial fragments and drops the full ones. Reading `.partial`
of a recorded `undefined` gap raises a `TypeError` (`none` result), aborting
the assignment. -/
def filterKeepPart : List (Option Response) → Option (List (Option Response))
  | [] => some []
  | none :: _ => none
  | some r :: rest =>
    match filterKeepPart rest with
    | none => none
    | some kept => some (if r.isPart then some r :: kept else kept)

/-- `withSingle` (src/response-builder.ts lines 66-88). Returns the
post-call builder state together with a thrown error message, if any:
* an absent fragment is recorded as a positional gap;
* a full fragment when one was already appended is silently dropped under
  the ignore policy, replaces (keeping every PARTIAL fragment and dropping
  the full ones) under the replace policy, and raises the fatal
  configuration error under neither;
* otherwise the fragment is pushed and the builder marked dirty. -/
def Builder.withSingle (b : Builder) (response : Option Response) :
    Builder × Option String :=
  match response with
  | none => ({ b with editableResponses := b.editableResponses ++ [none] }, none)
  | some r =>
    if !r.isPart then
      if b.fullResponseAppended && b.ignoreSubsequentFullResponses then
        (b, none)
      else if b.fullResponseAppended && b.replaceSubsequentFullResponses then
        match filterKeepPart b.editableResponses with
        | none => (b, some "TypeError: cannot read property of undefined")
        | some kept =>
          ({ b with editableResponses := kept ++ [some r],
                    contaminated := true }, none)
      else if b.fullResponseAppended then
        (b, some "ResponseBuilder already contains a full response, and subsequent full responses are not acceptable")
      else
        ({ b with fullResponseAppended := true, contaminated := true,
                  editableResponses := b.editableResponses ++ [some r] }, none)
    else
      ({ b with contaminated := true,
                editableResponses := b.editableResponses ++ [some r] }, none)

/-- `with(...responses)` (src/response-builder.ts lines 90-94): sequential
`withSingle` calls; a thrown error aborts the `forEach`. -/
def Builder.withAll (b : Builder) : List (Option Response) → Builder × Option String
  | [] => (b, none)
  | r :: rest =>
    match b.withSingle r with
    | (b2, some e) => (b2, some e)
    | (b2, none) => b2.withAll rest

/-- `clear()` (src/response-builder.ts lines 96-102): empties the fragment
list and drops the cached build — but does NOT reset
`fullResponseAppended`. -/
def Builder.clear (b : Builder) : Builder :=
  { b with editableResponses := [], responseCache := none, contaminated := false }

/-- The body/status/statusText/header accumulator of `join`
(src/response-builder.ts lines 114-131). -/
structure JoinAcc where
  headers : Headers
  body : Option BodyInitV
  status : Option Nat
  statusText : Option String

/-- The default entity-header list (src/response-builder.ts lines 133-140). -/
def defaultEntityHeaders : List String :=
  ["content-type", "content-length", "content-encoding",
   "content-disposition", "content-language", "content-location"]

/-- The header merge of `addResponse` (src/response-builder.ts lines
142-150): `forEach` over the fragment headers, `set` for entity headers when
`useSetForEntityHeaders` is enabled, `append` otherwise. A validation error
rejects the whole build. -/
def mergeHeaders (useSet : Bool) (entityHs : List String) (acc : Headers) :
    List (String × String) → Except String Headers
  | [] => .ok acc
  | (name, value) :: rest =>
    match (if useSet && entityHs.contains (toLowerString name)
           then acc.set name value else acc.append name value) with
    | .error e => .error e
    | .ok acc2 => mergeHeaders useSet entityHs acc2 rest

/-- `addResponse` (src/response-builder.ts lines 142-186): merge the headers;
when a full response seeds the build, or the fragment body was consumed,
contribute nothing further; otherwise take the fragment body (forcing a
drainable stream view through `asReadable` when the getter yields nothing
and the readable check is enabled, errors swallowed) and, if non-empty, make
it the candidate body, carrying the fragment status and status text along
when the status is numeric. The consumption `asReadable` performs on the
fragment stays local to the build. -/
def addResponse (env : Env) (disableReadableCheck useSet : Bool)
    (entityHs : List String) (haveFull : Bool) (acc : JoinAcc)
    (response : Response) : Except String JoinAcc :=
  match mergeHeaders useSet entityHs acc.headers response.bodyState.headers.pairs with
  | .error e => .error e
  | .ok hs =>
    let acc1 : JoinAcc := { acc with headers := hs }
    if haveFull then .ok acc1
    else if response.bodyState.bodyUsed then .ok acc1
    else
      let currentBody : Option BodyInitV :=
        match response.bodyState.body with
        | some v => some v
        | none =>
          if disableReadableCheck then none
          else
            match asReadable response.bodyState env with
            | (.ok (some src), b2) => some (.readable (b2.sourceChunks src))
            | _ => none
      match currentBody with
      | none => .ok acc1
      | some v =>
        let acc2 : JoinAcc := { acc1 with body := some v }
        match response.editableStatus with
        | some s =>
          .ok { acc2 with status := some s,
                          statusText := response.editableStatusText }
        | none => .ok acc2

/-- The sequential `reduce` over the fragments (src/response-builder.ts
lines 188-194). -/
def joinFold (env : Env) (disableReadableCheck useSet : Bool)
    (entityHs : List String) (haveFull : Bool) :
    JoinAcc → List Response → Except String JoinAcc
  | acc, [] => .ok acc
  | acc, r :: rest =>
    match addResponse env disableReadableCheck useSet entityHs haveFull acc r with
    | .error e => .error e
    | .ok acc2 => joinFold env disableReadableCheck useSet entityHs haveFull acc2 rest

/-- `join` (src/response-builder.ts lines 114-201): find the first full
fragment (its consumed body fails the build; otherwise it seeds
body/status/statusText), walk all fragments, post-process the headers
(falling back to the accumulated collection when the hook yields nothing)
and build the final `Response`. -/
def Builder.join (b : Builder) (env : Env) (fuel : Nat)
    (responses : List Response) : Option (Except String Response) :=
  let fullResponse := responses.find? (fun r => !r.isPart)
  let seed : Except String JoinAcc :=
    match fullResponse with
    | some fr =>
      if fr.bodyState.bodyUsed then
        .error "Provided full response but the body was already used"
      else
        .ok { headers := Headers.empty, body := fr.bodyState.body,
              status := fr.editableStatus, statusText := fr.editableStatusText }
    | none =>
      .ok { headers := Headers.empty, body := none,
            status := none, statusText := none }
  match seed with
  | .error e => some (.error e)
  | .ok acc0 =>
    let entityHs := b.entityHeaders.getD defaultEntityHeaders
    match joinFold env b.disableReadableCheck b.useSetForEntityHeaders entityHs
        fullResponse.isSome acc0 responses with
    | .error e => some (.error e)
    | .ok acc =>
      let headersInit : HeadersInit :=
        match b.processHeaders with
        | some f =>
          match f acc.headers with
          | some hi => hi
          | none => .inst acc.headers
        | none => .inst acc.headers
      mkResponse env fuel acc.body
        (some (.fields { status := acc.status, statusText := acc.statusText,
                         headers := some headersInit }))

/-- `build()` (src/response-builder.ts lines 104-112): return the cached
result when nothing changed, otherwise join the present (non-gap) fragments
and cache. -/
def Builder.build (b : Builder) (env : Env) (fuel : Nat) :
    Option (Except String Response) × Builder :=
  match b.responseCache, b.contaminated with
  | some cached, false => (cached, b)
  | _, _ =>
    let res := b.join env fuel (b.editableResponses.filterMap id)
    (res, { b with responseCache := some res, contaminated := false })

/-! ## Shared helpers for the claim theorems -/

/-- Projects a successful construction out of the fuel/exception wrapper. -/
def runOk {α : Type} : Option (Except String α) → Option α
  | some (.ok a) => some a
  | _ => none

/-- The error component of an accessor result. -/
def resultErr {α : Type} : Except AccessError (Option α) → Option AccessError
  | .error e => some e
  | .ok _ => none

/-- Whether an accessor resolved to `undefined`. -/
def resultUndef {α : Type} : Except AccessError (Option α) → Bool
  | .ok none => true
  | _ => false

/-- The accessors of the body abstraction, by name. -/
inductive AccessorId
  | text | json | formData | blob | arrayBuffer | buffer | bestSuited | readable
deriving DecidableEq

/-- Runs one accessor and projects its outcome to a common shape:
(thrown error, resolved-to-undefined, post-call body state). -/
def accessorRun (a : AccessorId) (b : Body) (env : Env) :
    Option AccessError × Bool × Body :=
  match a with
  | .text =>
    let r := b.text env; (resultErr r.1, resultUndef r.1, r.2)
  | .json =>
    let r := b.json env; (resultErr r.1, resultUndef r.1, r.2)
  | .formData =>
    let r := b.formData env; (resultErr r.1, resultUndef r.1, r.2)
  | .blob =>
    let r := b.blob env; (resultErr r.1, resultUndef r.1, r.2)
  | .arrayBuffer =>
    let r := b.arrayBuffer env; (resultErr r.1, resultUndef r.1, r.2)
  | .buffer =>
    let r := b.buffer_DO_NOT_USE_NON_STANDARD env
    (resultErr r.1, resultUndef r.1, r.2)
  | .bestSuited =>
    let r := b.bestSuited_DO_NOT_USE_NON_STANDARD env
    (resultErr r.1, resultUndef r.1, r.2)
  | .readable =>
    let r := b.readable_DO_NOT_USE_NON_STANDARD env
    (resultErr r.1, resultUndef r.1, r.2)

/-- Drain counter of the live stream backing a body, for the replay claims. -/
def Body.liveDrains (b : Body) : Nat :=
  match b.bodyRepresentation with
  | none => 0
  | some rep =>
    match rep.readable with
    | some st => st.drains
    | none => 0

/-! ## Claim C1 — builder scenario with `replaceSubsequentFullResponses`

The example scenario (packaged with the library): three Link partials, two
full responses, replace policy. The replace filter
`filter(response => response.partial)` keeps EVERY partial fragment and
drops only the full ones, so all three Link headers survive the replace. -/

/-- First scenario fragment: a bodiless partial with the acl Link. -/
def c1LinkAcl : Option Response :=
  runOk (mkPartialResponse stdEnv 10 none
    (some (.fields { headers := some (.obj
      [("Link", .leaf (.str "<.acl>; rel=\"acl\""))]) })))

/-- Second scenario fragment: a bodiless partial with the up Link. -/
def c1LinkUp : Option Response :=
  runOk (mkPartialResponse stdEnv 10 none
    (some (.fields { headers := some (.obj
      [("Link", .leaf (.str "<../>; rel=\"up\""))]) })))

/-- Third scenario fragment: the first full response. -/
def c1Full1 : Option Response :=
  runOk (mkResponse stdEnv 10 (some (.buffer (asciiEncode "Hey! 1"))) none)

/-- Fourth scenario fragment: a bodiless partial with the next Link. -/
def c1LinkNext : Option Response :=
  runOk (mkPartialResponse stdEnv 10 none
    (some (.fields { headers := some (.obj
      [("Link", .leaf (.str "<./next>; rel=\"next\""))]) })))

/-- Fifth scenario fragment: the second full response. -/
def c1Full2 : Option Response :=
  runOk (mkResponse stdEnv 10 (some (.buffer (asciiEncode "Hey! 2"))) none)

/-- The scenario run: a builder with the replace policy, the five fragments
appended in order, then `build()`. -/
def c1Result : Option Response :=
  c1LinkAcl.bind fun p1 => c1LinkUp.bind fun p2 => c1Full1.bind fun f1 =>
  c1LinkNext.bind fun p3 => c1Full2.bind fun f2 =>
  (mkBuilder (some { replaceSubsequentFullResponses := true })).toOption.bind
    fun b0 =>
      match b0.withAll [some p1, some p2, some f1, some p3, some f2] with
      | (_, some _) => none
      | (b1, none) => runOk (b1.build stdEnv 10).1

/-- C1 (counterexample): in the replace scenario the built response carries
THREE Link header values — the two partials appended before the replace
survive alongside the one appended after it — refuting the claim that
exactly one Link header (the post-replace partial) remains. The body is the
bytes of "Hey! 2" as claimed. -/
theorem C1_counterexample :
    c1Result.map (fun r =>
        (r.bodyState.headers.getAll "Link", r.bodyState.body)) =
      some (.ok ["<.acl>; rel=\"acl\"", "<../>; rel=\"up\"",
                 "<./next>; rel=\"next\""],
            some (.buffer (asciiEncode "Hey! 2"))) ∧
    c1Result.map (fun r => r.bodyState.headers.getAll "Link") ≠
      some (.ok ["<./next>; rel=\"next\""]) := by
  constructor
  · decide
  · decide

/-- C1 (amended): with `replaceSubsequentFullResponses`, appending the five
scenario fragments and building yields body "Hey! 2" with status 200, and
the replace discards only the previously appended FULL fragment: every
partial fragment survives, so the Link headers of all three partials appear
in the built response in append order. -/
theorem C1_amended :
    c1Result.map (fun r =>
        (r.bodyState.body, Response.status r,
         r.bodyState.headers.getAll "Link")) =
      some (some (.buffer (asciiEncode "Hey! 2")), some 200,
            .ok ["<.acl>; rel=\"acl\"", "<../>; rel=\"up\"",
                 "<./next>; rel=\"next\""]) := by
  decide

/-! ## Claim C5 — the status default of the Response constructor -/

/-- A response constructed with an init object that carries no status. -/
def c5Resp : Option Response :=
  runOk (mkResponse stdEnv 1 none (some (.fields {})))

/-- C5 (counterexample): constructing a Response with an init object present
but carrying no status field leaves the status `undefined`, not 200 — the
source line is `this.editableStatus = init ? init.status : 200`, which takes
`init.status` verbatim whenever an init object exists. -/
theorem C5_counterexample :
    c5Resp.map Response.status = some none ∧
    c5Resp.map Response.status ≠ some (some 200) := by
  constructor
  · decide
  · decide

/-- The status expression of the Response constructor:
`init ? init.status : 200`. -/
def initStatusDefault : Option RInit → Option Nat
  | none => some 200
  | some i => i.status

/-- Success shape of the Response constructor: the status of a successfully
constructed response is `init.status` when an init object is present and 200
only when the init object is absent altogether. -/
theorem mkResponse_ok_status (env : Env) (fuel : Nat) (body : Option BodyInitV)
    (init : Option RInit) (r : Response)
    (h : mkResponse env fuel body init = some (.ok r)) :
    r.editableStatus = initStatusDefault init := by
  cases hmb : mkBody env fuel body (init.bind RInit.headersInit) with
  | none => rw [mkResponse.eq_def, hmb] at h; exact absurd h (by simp)
  | some res =>
    cases res with
    | error e => rw [mkResponse.eq_def, hmb] at h; exact absurd h (by simp)
    | ok bs =>
      rw [mkResponse.eq_def, hmb] at h
      dsimp only at h
      split at h
      · exact absurd h (by simp)
      · have h2 := Except.ok.inj (Option.some.inj h)
        rw [← h2]
        cases init <;> rfl

/-- C5 (amended): the status defaults to 200 only when the constructor is
called without any init object; when an init object is present but carries
no status field, the status stays unset. -/
theorem C5_amended (env : Env) (fuel : Nat) (body : Option BodyInitV)
    (i : ResponseInitFields) (r1 r2 : Response)
    (h1 : mkResponse env fuel body none = some (.ok r1))
    (hstat : i.status = none)
    (h2 : mkResponse env fuel body (some (.fields i)) = some (.ok r2)) :
    Response.status r1 = some 200 ∧ Response.status r2 = none := by
  constructor
  · simpa [Response.status, initStatusDefault] using
      mkResponse_ok_status env fuel body none r1 h1
  · have := mkResponse_ok_status env fuel body (some (.fields i)) r2 h2
    simpa [Response.status, initStatusDefault, RInit.status, hstat] using this

/-- The concrete default-constructed response for the C5 witness. -/
def c5Default : Response :=
  { bodyState := { bodyRepresentation := none, headers := Headers.empty },
    editableStatus := some 200, editableStatusText := none }

/-- The concrete response of the C5 witness built with an empty init. -/
def c5WithInit : Response :=
  { bodyState := { bodyRepresentation := none, headers := Headers.empty },
    editableStatus := none, editableStatusText := none }

/-- C5 (witness): the amended statement instantiated at a concrete
environment and concrete constructions. -/
theorem C5_witness :
    Response.status c5Default = some 200 ∧ Response.status c5WithInit = none :=
  C5_amended stdEnv 1 none {} c5Default c5WithInit (by decide) rfl (by decide)

/-! ## Claims C6 and C9 — builder append/clear behaviour -/

/-- A concrete full (non-partial) response used to instantiate the builder
claims. -/
def sampleFullA : Response :=
  { bodyState := { bodyRepresentation := some { text := some "Hey! 1" },
                   headers := Headers.empty },
    editableStatus := some 200, editableStatusText := none }

/-- A second concrete full response. -/
def sampleFullB : Response :=
  { bodyState := { bodyRepresentation := some { text := some "Hey! 2" },
                   headers := Headers.empty },
    editableStatus := some 201, editableStatusText := none }

/-- C6: on a builder configured with neither merge policy that already holds
a full response, appending another full fragment raises the fatal
"already contains a full response" configuration error synchronously at the
`with` call itself, and leaves the builder state — the first full fragment
and every previously appended partial included — exactly as it was. -/
theorem C6_second_full_fails_at_with (b : Builder) (r : Response)
    (hIgn : b.ignoreSubsequentFullResponses = false)
    (hRep : b.replaceSubsequentFullResponses = false)
    (hFull : b.fullResponseAppended = true)
    (hPart : r.isPart = false) :
    b.withSingle (some r) =
      (b, some "ResponseBuilder already contains a full response, and subsequent full responses are not acceptable") := by
  simp [Builder.withSingle, hIgn, hRep, hFull, hPart]

/-- C6 (witness): the theorem applied to a concrete builder that already
holds a full fragment. -/
theorem C6_witness :
    Builder.withSingle
        { editableResponses := [some sampleFullA], fullResponseAppended := true }
        (some sampleFullB) =
      ({ editableResponses := [some sampleFullA], fullResponseAppended := true },
       some "ResponseBuilder already contains a full response, and subsequent full responses are not acceptable") :=
  C6_second_full_fails_at_with
    { editableResponses := [some sampleFullA], fullResponseAppended := true }
    sampleFullB rfl rfl rfl rfl

/-- C9: `clear()` does not reset the full-response flag. Appending a full
fragment to a fresh neither-policy builder, then clearing, leaves an empty
fragment list with the flag still set, so the next full `with` fails exactly
as on a non-empty builder — an emptied builder does not behave like a
freshly constructed one. -/
theorem C9_clear_keeps_full_flag (b : Builder) (r r2 : Response)
    (hIgn : b.ignoreSubsequentFullResponses = false)
    (hRep : b.replaceSubsequentFullResponses = false)
    (hFull0 : b.fullResponseAppended = false)
    (hPart : r.isPart = false) (hPart2 : r2.isPart = false) :
    (b.withSingle (some r)).1.clear.fullResponseAppended = true ∧
    (b.withSingle (some r)).1.clear.editableResponses = [] ∧
    (b.withSingle (some r)).1.clear.withSingle (some r2) =
      ((b.withSingle (some r)).1.clear,
       some "ResponseBuilder already contains a full response, and subsequent full responses are not acceptable") := by
  have h1 : b.withSingle (some r) =
      ({ b with fullResponseAppended := true, contaminated := true,
                editableResponses := b.editableResponses ++ [some r] }, none) := by
    simp [Builder.withSingle, hIgn, hRep, hFull0, hPart]
  rw [h1]
  refine ⟨rfl, rfl, ?_⟩
  simp [Builder.clear, Builder.withSingle, hIgn, hRep, hPart2]

/-- C9 (witness): the theorem applied to a freshly constructed builder and
two concrete full fragments. -/
theorem C9_witness :
    (Builder.withSingle {} (some sampleFullA)).1.clear.fullResponseAppended = true ∧
    (Builder.withSingle {} (some sampleFullA)).1.clear.editableResponses = [] ∧
    (Builder.withSingle {} (some sampleFullA)).1.clear.withSingle (some sampleFullB) =
      ((Builder.withSingle {} (some sampleFullA)).1.clear,
       some "ResponseBuilder already contains a full response, and subsequent full responses are not acceptable") :=
  C9_clear_keeps_full_flag {} sampleFullA sampleFullB rfl rfl rfl rfl rfl

/-! ## Claim C7 — header construction from a scalar-list mapping -/

/-- C7: constructing a header collection from a name mapped to a non-empty
list of scalars does NOT terminate. The forEach callback of `appendValues`
is `(item) => appendValues(instance, key, value)` — it passes the whole
array `value` instead of the element `item` — so the call recurses on the
same array forever: no fuel bound suffices, for the bare `appendValues` call
and for the whole `Headers` construction alike. -/
theorem C7_list_mapping_diverges :
    (∀ fuel : Nat,
      appendValues fuel Headers.empty "x" (.list [.str "a"]) = none) ∧
    (∀ fuel : Nat,
      mkHeaders fuel (some (.obj [("x", .list [.str "a"])])) = none) := by
  constructor
  · intro fuel
    exact appendValues_list_diverges fuel Headers.empty "x" [.str "a"] (by simp)
  · intro fuel
    have hd := appendValues_list_diverges fuel Headers.empty "x" [.str "a"] (by simp)
    simp [mkHeaders, addHeaders, addHeadersObject, hd]

/-! ## Claim C8 — content-type inference for URL-encoded-params bodies -/

/-- C8: a body built from a `URLSearchParams` source with no explicit
content-type header gets `text/plain;charset=UTF-8`, NOT
`application/x-www-form-urlencoded;charset=UTF-8`: `getBody` resolves the
params object to a TEXT representation (its `toString()` serialization), so
the `typeof text === "string"` branch of the constructor fires first and the
dedicated urlencoded branch is unreachable. -/
theorem C8_searchParams_content_type (env : Env) (fuel : Nat) (s : String) :
    mkBody env fuel (some (.searchParams s)) none =
      some (.ok { bodyRepresentation := some (getBodyValue env (.searchParams s)),
                  headers := ⟨[("content-type", ["text/plain;charset=UTF-8"])]⟩ }) ∧
    Headers.getAll ⟨[("content-type", ["text/plain;charset=UTF-8"])]⟩
        "content-type" = .ok ["text/plain;charset=UTF-8"] := by
  have hset : Headers.set Headers.empty "content-type"
      "text/plain;charset=UTF-8" =
      .ok ⟨[("content-type", ["text/plain;charset=UTF-8"])]⟩ := by decide
  have hkey : Headers.hasKey Headers.empty "content-type" = false := rfl
  refine ⟨?_, by decide⟩
  cases hsp : env.supportSearchParams <;>
    simp [mkBody, mkHeaders, addHeaders, getBody, getBodyValue, hsp, hkey, hset]

/-! ## Claim C10 — bodiless messages -/

/-- C10: on a body with no resolved representation, EVERY accessor (text,
json, formData, blob, arrayBuffer and the internal buffer / best-suited /
readable accessors) resolves to `undefined` without raising and without
touching any state — in particular `bodyUsed` stays false, so arbitrarily
many repeated accessor calls all behave the same way. -/
theorem C10_bodiless_accessors (env : Env) (b : Body) (a : AccessorId)
    (hrep : b.bodyRepresentation = none) :
    accessorRun a b env = (none, true, b) := by
  cases a <;>
    simp [accessorRun, Body.text, Body.json, Body.formData, Body.blob,
          Body.arrayBuffer, Body.buffer_DO_NOT_USE_NON_STANDARD,
          Body.bestSuited_DO_NOT_USE_NON_STANDARD,
          Body.readable_DO_NOT_USE_NON_STANDARD, hrep,
          resultErr, resultUndef]

/-- A concrete bodiless body for the C10 witness. -/
def c10Body : Body :=
  { bodyRepresentation := none, headers := Headers.empty }

/-- C10 (witness): the theorem applied to a concrete bodiless body and the
json accessor. -/
theorem C10_witness :
    accessorRun .json c10Body stdEnv = (none, true, c10Body) :=
  C10_bodiless_accessors stdEnv c10Body .json rfl

/-! ## Claim C2 — replayable stream bodies under ignored consumption -/

/-- C2: on a stream-backed body with consumption ignored and the replay
capability present (the `stream` module loads), two successive buffer reads
both succeed with the full byte content of the stream, and the live stream
is drained exactly once: the first read establishes the replay subscription
and drains the live stream through it, the second read is served entirely
from the recorded chunks. -/
theorem C2_replay_two_reads (env : Env) (b : Body) (chunks : List (List Nat))
    (hrep : b.bodyRepresentation = some { readable := some ⟨chunks, 0, 0⟩ })
    (hign : b.ignoreConsume = true)
    (hused : b.bodyUsedInternal = false)
    (hreplay : b.readableReplay = none)
    (hstream : env.streamModule = true) :
    (b.buffer_DO_NOT_USE_NON_STANDARD env).1 =
      .ok (some (concatChunks chunks)) ∧
    ((b.buffer_DO_NOT_USE_NON_STANDARD env).2.buffer_DO_NOT_USE_NON_STANDARD env).1 =
      .ok (some (concatChunks chunks)) ∧
    ((b.buffer_DO_NOT_USE_NON_STANDARD env).2.buffer_DO_NOT_USE_NON_STANDARD env).2.liveDrains
      = 1 := by
  have h1 : b.buffer_DO_NOT_USE_NON_STANDARD env =
      (.ok (some (concatChunks chunks)),
       { b with
           bodyRepresentation :=
             some { readable := some ⟨chunks, chunks.length, 1⟩ },
           readableReplay := some (.handle chunks true) }) := by
    simp [Body.buffer_DO_NOT_USE_NON_STANDARD, hrep, Body.consumed, hused,
          hign, Body.createReadableIfRequired, hreplay, hstream,
          Body.drainSource, Body.drainLive]
  rw [h1]
  have h2 : Body.buffer_DO_NOT_USE_NON_STANDARD
      { b with
          bodyRepresentation :=
            some { readable := some ⟨chunks, chunks.length, 1⟩ },
          readableReplay := some (.handle chunks true) } env =
      (.ok (some (concatChunks chunks)),
       { b with
           bodyRepresentation :=
             some { readable := some ⟨chunks, chunks.length, 1⟩ },
           readableReplay := some (.handle chunks true) }) := by
    simp [Body.buffer_DO_NOT_USE_NON_STANDARD, Body.consumed, hused, hign,
          Body.createReadableIfRequired, Body.drainSource]
  rw [h2]
  exact ⟨rfl, rfl, rfl⟩

/-- A concrete stream-backed body with ignored consumption for the C2
witness: two chunks of bytes. -/
def c2Body : Body :=
  { bodyRepresentation := some { readable := some ⟨[[72, 105], [33]], 0, 0⟩ },
    headers := Headers.empty, ignoreConsume := true }

/-- C2 (witness): the theorem applied to the concrete stream-backed body. -/
theorem C2_witness :
    (c2Body.buffer_DO_NOT_USE_NON_STANDARD stdEnv).1 =
      .ok (some (concatChunks [[72, 105], [33]])) ∧
    ((c2Body.buffer_DO_NOT_USE_NON_STANDARD stdEnv).2.buffer_DO_NOT_USE_NON_STANDARD stdEnv).1 =
      .ok (some (concatChunks [[72, 105], [33]])) ∧
    ((c2Body.buffer_DO_NOT_USE_NON_STANDARD stdEnv).2.buffer_DO_NOT_USE_NON_STANDARD stdEnv).2.liveDrains
      = 1 :=
  C2_replay_two_reads stdEnv c2Body [[72, 105], [33]] rfl rfl rfl rfl rfl

/-! ## Claim C3 — the single-use rule

Helper lemmas: how `consumed()` behaves, that draining and converting never
reset the consumption flag, and that every accessor on a used body rejects
before doing anything. -/

/-- A fresh, non-ignoring body is marked used by `consumed()`. -/
theorem consumed_fresh (b : Body) (hused : b.bodyUsedInternal = false)
    (hign : b.ignoreConsume = false) :
    b.consumed = (none, { b with bodyUsedInternal := true }) := by
  simp [Body.consumed, hused, hign]

/-- A used body is rejected by `consumed()` with the state unchanged. -/
theorem consumed_used (b : Body) (hused : b.bodyUsedInternal = true) :
    b.consumed = (some (.consumption "Already read"), b) := by
  simp [Body.consumed, hused]

/-- Draining the live stream never changes the consumption flag. -/
@[simp] theorem drainLive_used (b : Body) :
    b.drainLive.2.bodyUsedInternal = b.bodyUsedInternal := by
  cases hb : b.bodyRepresentation with
  | none => simp [Body.drainLive, hb]
  | some rep =>
    cases hr : rep.readable with
    | none => simp [Body.drainLive, hb, hr]
    | some st => simp [Body.drainLive, hb, hr]

/-- Draining the live stream never changes the ignore flag. -/
@[simp] theorem drainLive_ign (b : Body) :
    b.drainLive.2.ignoreConsume = b.ignoreConsume := by
  cases hb : b.bodyRepresentation with
  | none => simp [Body.drainLive, hb]
  | some rep =>
    cases hr : rep.readable with
    | none => simp [Body.drainLive, hb, hr]
    | some st => simp [Body.drainLive, hb, hr]

/-- Draining the live stream keeps the representation present. -/
@[simp] theorem drainLive_rep (b : Body) :
    b.drainLive.2.bodyRepresentation.isSome = b.bodyRepresentation.isSome := by
  cases hb : b.bodyRepresentation with
  | none => simp [Body.drainLive, hb]
  | some rep =>
    cases hr : rep.readable with
    | none => simp [Body.drainLive, hb, hr]
    | some st => simp [Body.drainLive, hb, hr]

/-- Draining any read source never changes the consumption flag. -/
@[simp] theorem drainSource_used (b : Body) (src : ReadSource) :
    (b.drainSource src).2.bodyUsedInternal = b.bodyUsedInternal := by
  cases src with
  | live => simp [Body.drainSource]
  | replayed recorded ended => cases ended <;> simp [Body.drainSource]

/-- Draining any read source keeps the representation present. -/
@[simp] theorem drainSource_rep (b : Body) (src : ReadSource) :
    (b.drainSource src).2.bodyRepresentation.isSome =
      b.bodyRepresentation.isSome := by
  cases src with
  | live => simp [Body.drainSource]
  | replayed recorded ended => cases ended <;> simp [Body.drainSource]

/-- With consumption not ignored, `createReadableIfRequired` hands out the
live stream and leaves the state untouched. -/
theorem createReadable_noIgnore (env : Env) (b : Body)
    (hign : b.ignoreConsume = false) :
    (b.createReadableIfRequired env).2 = b := by
  cases hb : b.bodyRepresentation with
  | none => simp [Body.createReadableIfRequired, hb]
  | some rep =>
    cases hr : rep.readable with
    | none => simp [Body.createReadableIfRequired, hb, hr]
    | some st => simp [Body.createReadableIfRequired, hb, hr, hign]

/-- With consumption not ignored, the text conversion never changes the
consumption flag. -/
theorem textNoConsumeCheck_used (env : Env) (b : Body)
    (hign : b.ignoreConsume = false) :
    (b.textNoConsumeCheck env).2.bodyUsedInternal = b.bodyUsedInternal := by
  cases hb : b.bodyRepresentation with
  | none => simp [Body.textNoConsumeCheck, hb]
  | some rep =>
    cases hr : rep.readable with
    | some st =>
      have hcr : b.createReadableIfRequired env = (.ok (some .live), b) := by
        simp [Body.createReadableIfRequired, hb, hr, hign]
      simp [Body.textNoConsumeCheck, hb, hr, hcr]
    | none =>
      cases hbuf : rep.buffer with
      | some bytes =>
        cases hsb : env.supportBuffer <;>
          simp [Body.textNoConsumeCheck, hb, hr, hbuf, hsb]
      | none =>
        cases hbl : rep.blob with
        | some bl => simp [Body.textNoConsumeCheck, hb, hr, hbuf, hbl]
        | none =>
          cases hab : rep.arrayBuffer with
          | some bytes => simp [Body.textNoConsumeCheck, hb, hr, hbuf, hbl, hab]
          | none =>
            cases ht : rep.text with
            | some t => simp [Body.textNoConsumeCheck, hb, hr, hbuf, hbl, hab, ht]
            | none => simp [Body.textNoConsumeCheck, hb, hr, hbuf, hbl, hab, ht]

/-- With consumption not ignored, the text conversion keeps the
representation present. -/
theorem textNoConsumeCheck_rep (env : Env) (b : Body)
    (hign : b.ignoreConsume = false) :
    (b.textNoConsumeCheck env).2.bodyRepresentation.isSome =
      b.bodyRepresentation.isSome := by
  cases hb : b.bodyRepresentation with
  | none => simp [Body.textNoConsumeCheck, hb]
  | some rep =>
    cases hr : rep.readable with
    | some st =>
      have hcr : b.createReadableIfRequired env = (.ok (some .live), b) := by
        simp [Body.createReadableIfRequired, hb, hr, hign]
      simp [Body.textNoConsumeCheck, hb, hr, hcr]
    | none =>
      cases hbuf : rep.buffer with
      | some bytes =>
        cases hsb : env.supportBuffer <;>
          simp [Body.textNoConsumeCheck, hb, hr, hbuf, hsb]
      | none =>
        cases hbl : rep.blob with
        | some bl => simp [Body.textNoConsumeCheck, hb, hr, hbuf, hbl]
        | none =>
          cases hab : rep.arrayBuffer with
          | some bytes => simp [Body.textNoConsumeCheck, hb, hr, hbuf, hbl, hab]
          | none =>
            cases ht : rep.text with
            | some t => simp [Body.textNoConsumeCheck, hb, hr, hbuf, hbl, hab, ht]
            | none => simp [Body.textNoConsumeCheck, hb, hr, hbuf, hbl, hab, ht]

/-- `text()` on a used body rejects without touching anything. -/
theorem text_already (env : Env) (b : Body) (rep : BodyRepresentation)
    (hrep : b.bodyRepresentation = some rep)
    (hused : b.bodyUsedInternal = true) :
    b.text env = (.error (.consumption "Already read"), b) := by
  simp [Body.text, hrep, consumed_used b hused]

/-- `json()` on a used body rejects without touching anything. -/
theorem json_already (env : Env) (b : Body) (rep : BodyRepresentation)
    (hrep : b.bodyRepresentation = some rep)
    (hused : b.bodyUsedInternal = true) :
    b.json env = (.error (.consumption "Already read"), b) := by
  simp [Body.json, hrep, consumed_used b hused]

/-- `formData()` on a used body rejects without touching anything. -/
theorem formData_already (env : Env) (b : Body) (rep : BodyRepresentation)
    (hrep : b.bodyRepresentation = some rep)
    (hused : b.bodyUsedInternal = true) :
    b.formData env = (.error (.consumption "Already read"), b) := by
  simp [Body.formData, hrep, consumed_used b hused]

/-- `blob()` on a used body rejects without touching anything. -/
theorem blob_already (env : Env) (b : Body) (rep : BodyRepresentation)
    (hrep : b.bodyRepresentation = some rep)
    (hused : b.bodyUsedInternal = true) :
    b.blob env = (.error (.consumption "Already read"), b) := by
  simp [Body.blob, hrep, consumed_used b hused]

/-- `arrayBuffer()` on a used body rejects without touching anything. -/
theorem arrayBuffer_already (env : Env) (b : Body) (rep : BodyRepresentation)
    (hrep : b.bodyRepresentation = some rep)
    (hused : b.bodyUsedInternal = true) :
    b.arrayBuffer env = (.error (.consumption "Already read"), b) := by
  simp [Body.arrayBuffer, hrep, consumed_used b hused]

/-- The buffer accessor on a used body rejects without touching anything. -/
theorem buffer_already (env : Env) (b : Body) (rep : BodyRepresentation)
    (hrep : b.bodyRepresentation = some rep)
    (hused : b.bodyUsedInternal = true) :
    b.buffer_DO_NOT_USE_NON_STANDARD env =
      (.error (.consumption "Already read"), b) := by
  simp [Body.buffer_DO_NOT_USE_NON_STANDARD, hrep, consumed_used b hused]

/-- The best-suited accessor on a used body rejects without touching
anything. -/
theorem bestSuited_already (env : Env) (b : Body) (rep : BodyRepresentation)
    (hrep : b.bodyRepresentation = some rep)
    (hused : b.bodyUsedInternal = true) :
    b.bestSuited_DO_NOT_USE_NON_STANDARD env =
      (.error (.consumption "Already read"), b) := by
  simp [Body.bestSuited_DO_NOT_USE_NON_STANDARD, hrep, consumed_used b hused]

/-- The readable accessor on a used body rejects without touching anything. -/
theorem readable_already (env : Env) (b : Body) (rep : BodyRepresentation)
    (hrep : b.bodyRepresentation = some rep)
    (hused : b.bodyUsedInternal = true) :
    b.readable_DO_NOT_USE_NON_STANDARD env =
      (.error (.consumption "Already read"), b) := by
  simp [Body.readable_DO_NOT_USE_NON_STANDARD, hrep, consumed_used b hused]

/-- Every accessor on a used body with a present representation fails with
the "Already read" consumption error and leaves the state unchanged. -/
theorem accessorRun_already (env : Env) (b : Body) (a : AccessorId)
    (hrep : b.bodyRepresentation.isSome = true)
    (hused : b.bodyUsedInternal = true) :
    accessorRun a b env = (some (.consumption "Already read"), false, b) := by
  obtain ⟨rep, hr⟩ := Option.isSome_iff_exists.mp hrep
  cases a <;>
    simp [accessorRun, text_already env b rep hr hused,
      json_already env b rep hr hused, formData_already env b rep hr hused,
      blob_already env b rep hr hused, arrayBuffer_already env b rep hr hused,
      buffer_already env b rep hr hused, bestSuited_already env b rep hr hused,
      readable_already env b rep hr hused, resultErr, resultUndef]

/-- With consumption not ignored, `createReadableIfRequired` on a
stream-backed body hands out the live stream unchanged. -/
theorem createReadable_live (env : Env) (b : Body) (rep : BodyRepresentation)
    (st : StreamState) (hrep : b.bodyRepresentation = some rep)
    (hr : rep.readable = some st) (hign : b.ignoreConsume = false) :
    b.createReadableIfRequired env = (.ok (some .live), b) := by
  simp [Body.createReadableIfRequired, hrep, hr, hign]

/-- Every accessor, called first on a fresh non-ignoring body with a present
representation, leaves the body marked used with its representation still
present — whatever the conversion outcome. -/
theorem accessorRun_marks (env : Env) (b : Body) (a : AccessorId)
    (rep : BodyRepresentation)
    (hrep : b.bodyRepresentation = some rep)
    (hign : b.ignoreConsume = false)
    (hused : b.bodyUsedInternal = false) :
    (accessorRun a b env).2.2.bodyUsedInternal = true ∧
    (accessorRun a b env).2.2.bodyRepresentation.isSome = true := by
  obtain ⟨brep, bh, bu, bi, brr⟩ := b
  have hrep' : brep = some rep := hrep
  have hign' : bi = false := hign
  have hused' : bu = false := hused
  subst hrep' hign' hused'
  have hc : Body.consumed ⟨some rep, bh, false, false, brr⟩ =
      (none, ⟨some rep, bh, true, false, brr⟩) := rfl
  have hb1rep : (⟨some rep, bh, true, false, brr⟩ : Body).bodyRepresentation
      = some rep := rfl
  have hb1used : (⟨some rep, bh, true, false, brr⟩ : Body).bodyUsedInternal
      = true := rfl
  have htu := textNoConsumeCheck_used env ⟨some rep, bh, true, false, brr⟩ rfl
  have htr := textNoConsumeCheck_rep env ⟨some rep, bh, true, false, brr⟩ rfl
  rw [hb1rep] at htr
  cases a with
  | text =>
    simp [accessorRun, Body.text, hc, htu, htr]
  | json =>
    rcases htx : Body.textNoConsumeCheck ⟨some rep, bh, true, false, brr⟩ env
      with ⟨res, b2⟩
    rw [htx] at htu htr
    simp only [hb1used] at htu
    simp at htu htr
    cases res with
    | error e => simp [accessorRun, Body.json, hc, htx, htu, htr]
    | ok topt =>
      cases topt with
      | none => simp [accessorRun, Body.json, hc, htx, htu, htr]
      | some t =>
        cases hparse : env.jsonParse t <;>
          simp [accessorRun, Body.json, hc, htx, hparse, htu, htr]
  | formData =>
    cases hsf : env.supportFormData with
    | false => simp [accessorRun, Body.formData, hc, hsf]
    | true =>
      cases hfd : rep.formData with
      | some entries =>
        simp [accessorRun, Body.formData, hc, hsf, hfd]
      | none =>
        rcases htx : Body.textNoConsumeCheck ⟨some rep, bh, true, false, brr⟩ env
          with ⟨res, b2⟩
        rw [htx] at htu htr
        simp only [hb1used] at htu
        simp at htu htr
        cases res with
        | error e => simp [accessorRun, Body.formData, hc, hsf, hfd, htx, htu, htr]
        | ok topt =>
          cases topt with
          | none => simp [accessorRun, Body.formData, hc, hsf, hfd, htx, htu, htr]
          | some t =>
            cases hparse : readStringAsFormData env t <;>
              simp [accessorRun, Body.formData, hc, hsf, hfd, htx, hparse, htu, htr]
  | blob =>
    cases hsb : env.supportBlob with
    | false => simp [accessorRun, Body.blob, hc, hsb]
    | true =>
      cases hbl : rep.blob with
      | some bl => simp [accessorRun, Body.blob, hc, hsb, hbl]
      | none =>
        cases hr : rep.readable with
        | some st => simp [accessorRun, Body.blob, hc, hsb, hbl, hr]
        | none =>
          cases hbuf : rep.buffer with
          | some bytes =>
            simp [accessorRun, Body.blob, hc, hsb, hbl, hr, hbuf]
          | none =>
            cases hab : rep.arrayBuffer with
            | some bytes =>
              simp [accessorRun, Body.blob, hc, hsb, hbl, hr, hbuf, hab]
            | none =>
              cases ht : rep.text <;>
                simp [accessorRun, Body.blob, hc, hsb, hbl, hr, hbuf, hab, ht]
  | arrayBuffer =>
    cases hsa : env.supportArrayBuffer with
    | false => simp [accessorRun, Body.arrayBuffer, hc, hsa]
    | true =>
      cases hr : rep.readable with
      | some st => simp [accessorRun, Body.arrayBuffer, hc, hsa, hr]
      | none =>
        cases hbuf : rep.buffer with
        | some bytes =>
          simp [accessorRun, Body.arrayBuffer, hc, hsa, hr, hbuf]
        | none =>
          cases hab : rep.arrayBuffer with
          | some bytes =>
            simp [accessorRun, Body.arrayBuffer, hc, hsa, hr, hbuf, hab]
          | none =>
            cases ht : rep.text with
            | some t =>
              simp [accessorRun, Body.arrayBuffer, hc, hsa, hr, hbuf, hab, ht]
            | none =>
              have hbl := blob_already env ⟨some rep, bh, true, false, brr⟩
                rep rfl rfl
              simp [accessorRun, Body.arrayBuffer, hc, hsa, hr, hbuf, hab, ht, hbl]
  | buffer =>
    cases hr : rep.readable with
    | some st =>
      have hcr := createReadable_live env ⟨some rep, bh, true, false, brr⟩
        rep st rfl hr rfl
      simp [accessorRun, Body.buffer_DO_NOT_USE_NON_STANDARD, hc, hr, hcr]
    | none =>
      cases hbuf : rep.buffer with
      | some bytes =>
        simp [accessorRun, Body.buffer_DO_NOT_USE_NON_STANDARD, hc, hr, hbuf]
      | none =>
        cases ht : rep.text with
        | some t =>
          simp [accessorRun, Body.buffer_DO_NOT_USE_NON_STANDARD, hc, hr, hbuf, ht]
        | none =>
          have hab := arrayBuffer_already env ⟨some rep, bh, true, false, brr⟩
            rep rfl rfl
          simp [accessorRun, Body.buffer_DO_NOT_USE_NON_STANDARD, hc, hr, hbuf,
                ht, hab]
  | bestSuited =>
    cases hr : rep.readable with
    | some st =>
      have hcr := createReadable_live env ⟨some rep, bh, true, false, brr⟩
        rep st rfl hr rfl
      simp [accessorRun, Body.bestSuited_DO_NOT_USE_NON_STANDARD, hc, hr, hcr]
    | none =>
      simp [accessorRun, Body.bestSuited_DO_NOT_USE_NON_STANDARD, hc, hr]
  | readable =>
    cases hsb : env.supportBuffer with
    | false =>
      simp [accessorRun, Body.readable_DO_NOT_USE_NON_STANDARD, hc, hsb]
    | true =>
      cases hr : rep.readable with
      | some st =>
        have hcr := createReadable_live env ⟨some rep, bh, true, false, brr⟩
          rep st rfl hr rfl
        simp [accessorRun, Body.readable_DO_NOT_USE_NON_STANDARD, hc, hsb, hr, hcr]
      | none =>
        simp [accessorRun, Body.readable_DO_NOT_USE_NON_STANDARD, hc, hsb, hr]

/-- C3: single use. On a body with a resolved representation, consumption
not ignored and not yet consumed, ANY first accessor call (text, json,
formData, blob, arrayBuffer, the internal buffer / best-suited / readable
accessors) marks the body consumed, and ANY second accessor call then fails
with the ConsumptionError "Already read" instead of returning data. -/
theorem C3_single_use (env : Env) (b : Body) (first second : AccessorId)
    (hrep : b.bodyRepresentation.isSome = true)
    (hign : b.ignoreConsume = false)
    (hused : b.bodyUsedInternal = false) :
    (accessorRun first b env).2.2.bodyUsedInternal = true ∧
    (accessorRun second (accessorRun first b env).2.2 env).1 =
      some (.consumption "Already read") := by
  obtain ⟨rep, hr⟩ := Option.isSome_iff_exists.mp hrep
  have hm := accessorRun_marks env b first rep hr hign hused
  refine ⟨hm.1, ?_⟩
  rw [accessorRun_already env (accessorRun first b env).2.2 second hm.2 hm.1]

/-- A concrete fresh text-backed body for the C3 witness. -/
def c3Body : Body :=
  { bodyRepresentation := some { text := some "hi" }, headers := Headers.empty }

/-- C3 (witness): a first text read on a concrete fresh body marks it
consumed and a subsequent arrayBuffer read fails with "Already read". -/
theorem C3_witness :
    (accessorRun .text c3Body stdEnv).2.2.bodyUsedInternal = true ∧
    (accessorRun .arrayBuffer (accessorRun .text c3Body stdEnv).2.2 stdEnv).1 =
      some (.consumption "Already read") :=
  C3_single_use stdEnv c3Body .text .arrayBuffer rfl rfl rfl

/-! ## Claim C4 — cloning and the single-use restriction

The roundtrip lemma: copying a well-formed header collection entry by entry
(`addHeadersInstance`, the path `clone()` takes through the constructor)
reproduces the collection exactly. Well-formed means what the `Headers`
operations maintain: lower-cased valid names, no duplicate keys, non-empty
valid value lists. -/

/-- Wellformedness of one stored entry. -/
def wfEntry (e : String × List String) : Bool :=
  validName e.1 && (toLowerString e.1 == e.1) && !e.2.isEmpty &&
  e.2.all (fun v => validValue v)

/-- Wellformedness of a stored entry list: each entry well formed, keys
pairwise distinct. -/
def wfEntries : List (String × List String) → Bool
  | [] => true
  | e :: rest => wfEntry e && rest.all (fun e2 => e2.1 != e.1) && wfEntries rest

/-- Wellformedness of a header collection. -/
def Headers.wf (h : Headers) : Bool := wfEntries h.entries

/-- Assigning a fresh key puts it at the end of the entry list. -/
theorem setEntries_fresh (l : List (String × List String)) (k : String)
    (vs : List String) (h : Headers.hasKey ⟨l⟩ k = false) :
    setEntries l k vs = l ++ [(k, vs)] := by
  induction l with
  | nil => rfl
  | cons e rest ih =>
    simp [Headers.hasKey, List.any_cons] at h
    simp [setEntries, h.1]
    exact ih (by simp [Headers.hasKey]; exact h.2)

/-- Pushing onto the key held by the last entry leaves earlier entries (all
with different keys) untouched. -/
theorem pushEntry_last (l : List (String × List String)) (k : String)
    (vs : List String) (v : String)
    (h : ∀ e ∈ l, (e.1 == k) = false) :
    pushEntry (l ++ [(k, vs)]) k v = l ++ [(k, vs ++ [v])] := by
  induction l with
  | nil => simp [pushEntry]
  | cons e rest ih =>
    have he := h e (by simp)
    simp [pushEntry, he]
    exact ih (fun e2 h2 => h e2 (by simp [h2]))

/-- Keys absent from a list never test equal to any of its entry keys. -/
theorem hasKey_false_forall (l : List (String × List String)) (k : String)
    (hkey : Headers.hasKey ⟨l⟩ k = false) :
    ∀ e ∈ l, (e.1 == k) = false := by
  intro e he
  by_contra hne
  simp at hne
  rw [Headers.hasKey] at hkey
  have : l.any (fun e => e.1 == k) = true :=
    List.any_eq_true.mpr ⟨e, he, by simp [hne]⟩
  simp [this] at hkey

/-- Appending a run of values of one fresh key onto the trailing entry. -/
theorem appendAll_same_key (l : List (String × List String)) (k : String)
    (vs0 vs : List String)
    (hkey : Headers.hasKey ⟨l⟩ k = false)
    (hname : validName k = true) (hlower : toLowerString k = k)
    (hvals : vs.all (fun v => validValue v) = true) :
    appendAll ⟨l ++ [(k, vs0)]⟩ (vs.map (fun v => (k, v))) =
      .ok ⟨l ++ [(k, vs0 ++ vs)]⟩ := by
  induction vs generalizing vs0 with
  | nil => simp [appendAll]
  | cons v vs ih =>
    rw [List.all_cons, Bool.and_eq_true] at hvals
    have hv1 := hvals.1
    have hv2 := hvals.2
    have hlk := hasKey_false_forall l k hkey
    have hk : Headers.hasKey ⟨l ++ [(k, vs0)]⟩ k = true := by
      simp [Headers.hasKey]
    have hpush := pushEntry_last l k vs0 v hlk
    have happ : Headers.append ⟨l ++ [(k, vs0)]⟩ k v =
        .ok ⟨l ++ [(k, vs0 ++ [v])]⟩ := by
      rw [Headers.append, hlower]
      simp [hname, hv1, hk, hpush]
    rw [List.map_cons, appendAll]
    simp only [happ]
    rw [ih (vs0 ++ [v]) hv2]
    simp

/-- Appending every value of a fresh key reproduces that entry at the end. -/
theorem appendAll_fresh_key (l : List (String × List String)) (k : String)
    (v : String) (vs : List String)
    (hkey : Headers.hasKey ⟨l⟩ k = false)
    (hname : validName k = true) (hlower : toLowerString k = k)
    (hvals : ((v :: vs).all (fun v => validValue v)) = true) :
    appendAll ⟨l⟩ ((v :: vs).map (fun v => (k, v))) =
      .ok ⟨l ++ [(k, v :: vs)]⟩ := by
  rw [List.all_cons, Bool.and_eq_true] at hvals
  have hv1 := hvals.1
  have hv2 := hvals.2
  have happ : Headers.append ⟨l⟩ k v = .ok ⟨l ++ [(k, [v])]⟩ := by
    rw [Headers.append, Headers.set, hlower]
    simp [hname, hv1, hkey, setEntries_fresh l k [v] hkey]
  rw [List.map_cons, appendAll]
  simp only [happ]
  rw [appendAll_same_key l k [v] vs hkey hname hlower hv2]
  simp

/-- `appendAll` distributes over concatenated pair lists. -/
theorem appendAll_append (h : Headers) (p1 p2 : List (String × String)) :
    appendAll h (p1 ++ p2) =
      (match appendAll h p1 with
        | .error e => .error e
        | .ok h2 => appendAll h2 p2) := by
  induction p1 generalizing h with
  | nil => simp [appendAll]
  | cons p rest ih =>
    obtain ⟨k, v⟩ := p
    rw [List.cons_append, appendAll, appendAll]
    cases h.append k v with
    | error e => simp
    | ok h2 => simp [ih h2]

/-- Per-entry copying of a well-formed entry list onto a collection holding
none of its keys appends the list verbatim. -/
theorem appendAll_entries (rest : List (String × List String)) :
    ∀ (l : List (String × List String)),
      wfEntries rest = true →
      (∀ e ∈ rest, Headers.hasKey ⟨l⟩ e.1 = false) →
      appendAll ⟨l⟩ (entryPairs rest) = .ok ⟨l ++ rest⟩ := by
  induction rest with
  | nil => intro l _ _; simp [entryPairs, appendAll]
  | cons e rest ih =>
    intro l hwf hdisj
    obtain ⟨k, vs⟩ := e
    rw [wfEntries, Bool.and_eq_true, Bool.and_eq_true] at hwf
    obtain ⟨⟨hwfe, hkeys⟩, hwfr⟩ := hwf
    rw [wfEntry, Bool.and_eq_true, Bool.and_eq_true, Bool.and_eq_true] at hwfe
    obtain ⟨⟨⟨hname, hlower⟩, hne⟩, hvals⟩ := hwfe
    have hlower' : toLowerString k = k := by simpa using hlower
    have hkey : Headers.hasKey ⟨l⟩ k = false := hdisj (k, vs) (by simp)
    cases vs with
    | nil => simp at hne
    | cons v vs =>
      rw [entryPairs, appendAll_append]
      rw [appendAll_fresh_key l k v vs hkey hname hlower' hvals]
      have hdisj2 : ∀ e2 ∈ rest, Headers.hasKey ⟨l ++ [(k, v :: vs)]⟩ e2.1 = false := by
        intro e2 he2
        have h1 : Headers.hasKey ⟨l⟩ e2.1 = false := hdisj e2 (by simp [he2])
        have h2 : (e2.1 == k) = false := by
          have := List.all_eq_true.mp hkeys e2 he2
          simpa using this
        rw [Headers.hasKey] at h1 ⊢
        simp [List.any_append, h1]
        simpa [Bool.beq_comm] using h2
      have := ih (l ++ [(k, v :: vs)]) hwfr hdisj2
      simp [this]

/-- Copying a well-formed header collection entry by entry into an empty one
reproduces it exactly (the path the constructor takes for the init of
`clone()`). -/
theorem addHeadersInstance_roundtrip (h : Headers) (hwf : h.wf = true) :
    addHeadersInstance Headers.empty h = .ok h := by
  obtain ⟨entries⟩ := h
  have := appendAll_entries entries [] hwf (by intro e _; rfl)
  simpa [addHeadersInstance, Headers.pairs, Headers.empty] using this

/-- A response built from the string body "hello" with no init. -/
def c4Orig : Option Response :=
  runOk (mkResponse stdEnv 2 (some (.str "hello")) none)

/-- The same response after its body was consumed by a text read. -/
def c4Consumed : Option Response :=
  c4Orig.map (fun r => { r with bodyState := (r.bodyState.text stdEnv).2 })

/-- The clone taken AFTER consumption. -/
def c4Clone : Option Response :=
  c4Consumed.bind (fun r => runOk (r.clone stdEnv 2))

/-- C4 (counterexample): after consuming the original, a second text read on
the original fails with "Already read", but the SAME read on a clone taken
after consumption succeeds and returns the data — the clone starts with a
fresh, unconsumed copy of the value-backed body, so the single-use
restriction is NOT propagated by `clone()`. -/
theorem C4_counterexample :
    c4Consumed.map (fun r => (r.bodyState.text stdEnv).1) =
      some (.error (.consumption "Already read")) ∧
    c4Clone.map (fun c => (c.bodyState.text stdEnv).1) =
      some (.ok (some "hello")) ∧
    c4Clone.map (fun c => c.bodyState.bodyUsed) = some false := by
  refine ⟨by decide, by decide, by decide⟩

/-- C4 (amended): `clone()` copies status, status text, headers and the
value-backed body, but never the consumption state. For every response with
a text-backed body and well-formed headers that carry a content-type entry
(the shape the constructor itself produces), the clone — taken before OR
after consumption — is a response with the same status, status text and
headers and a FRESH unconsumed body holding the same text, and a text read
on the clone succeeds with that text. -/
theorem C4_amended (env : Env) (fuel : Nat) (r : Response) (t : String)
    (hrep : r.bodyState.bodyRepresentation = some { text := some t })
    (ht : (t == "") = false)
    (hwf : r.bodyState.headers.wf = true)
    (hct : r.bodyState.headers.hasKey "content-type" = true)
    (hns : (r.editableStatus == some 101 || r.editableStatus == some 204 ||
            r.editableStatus == some 205 || r.editableStatus == some 304)
           = false) :
    r.clone env fuel =
      some (.ok
        { bodyState := { bodyRepresentation := some { text := some t },
                         headers := r.bodyState.headers },
          editableStatus := r.editableStatus,
          editableStatusText := r.editableStatusText }) ∧
    (Body.text { bodyRepresentation := some { text := some t },
                 headers := r.bodyState.headers } env).1 = .ok (some t) := by
  have ht' : t ≠ "" := by simpa using ht
  have hbody : r.bodyState.body = some (.str t) := by
    simp [Body.body, hrep, ht']
  have hh := addHeadersInstance_roundtrip r.bodyState.headers hwf
  constructor
  · rw [Response.clone, mkResponse.eq_def]
    have hmb : mkBody env fuel (some (.str t))
        ((some (RInit.ofResponse r)).bind RInit.headersInit) =
        some (.ok { bodyRepresentation := some { text := some t },
                    headers := r.bodyState.headers }) := by
      simp [RInit.headersInit, mkBody, mkHeaders, addHeaders, hh,
            getBody, getBodyValue, hct]
    rw [hbody, hmb]
    simp [RInit.status, RInit.statusText, jsTruthyBody, ht', hns]
  · simp [Body.text, Body.consumed, Body.textNoConsumeCheck]

/-- A concrete consumed original for the C4 witness: text body "hello",
constructor-produced headers, already marked used. -/
def c4Sample : Response :=
  { bodyState :=
      { bodyRepresentation := some { text := some "hello" },
        headers := ⟨[("content-type", ["text/plain;charset=UTF-8"])]⟩,
        bodyUsedInternal := true },
    editableStatus := some 200, editableStatusText := none }

/-- C4 (witness): the amended statement instantiated at the concrete
consumed response. -/
theorem C4_witness :
    c4Sample.clone stdEnv 2 =
      some (.ok
        { bodyState := { bodyRepresentation := some { text := some "hello" },
                         headers := c4Sample.bodyState.headers },
          editableStatus := c4Sample.editableStatus,
          editableStatusText := c4Sample.editableStatusText }) ∧
    (Body.text { bodyRepresentation := some { text := some "hello" },
                 headers := c4Sample.bodyState.headers } stdEnv).1 =
      .ok (some "hello") :=
  C4_amended stdEnv 2 c4Sample "hello" rfl rfl (by decide) rfl rfl
